import Mathlib

/-!
Verification of the guiorder configuration model (Ladme/guiorder).

This development shallowly embeds the configuration data model of the
guiorder GUI and its two conversion directions:

* import  : `gorder::input::Analysis` → `GuiAnalysis`   (src/convert.rs, TryFrom<Analysis>)
* export  : `&GuiAnalysis` → `gorder::input::Analysis`  (src/convert.rs, TryFrom<&GuiAnalysis>)

together with the per-group validity predicates
(`check_leaflets_sanity`, `check_geometry_sanity`, `check_ordermaps_sanity`,
`check_membrane_normal_sanity`, `check_analysis_params_sanity`, `check_sanity`).

Modelling conventions:

* Rust `f32` is modelled by `F` below: an exact rational extended with the two
  infinities (the GUI uses `f32::INFINITY` / `f32::NEG_INFINITY` as sentinel
  bounds).  NaN never arises from the widget ranges used by the program and is
  not modelled.
* `String` is Lean `String`, `Vec<String>` is `List String` (order preserved),
  `usize` is `Nat`, `NonZeroUsize` is `ℕ+`.
* The engine crate `gorder` is not part of this repository; its input types are
  embedded as passive records exactly as the guiorder sources construct and
  destructure them, and the validation performed by its fallible constructors
  (`DynamicNormal::new`, `Geometry::cuboid/cylinder/sphere`, `GridSpan::manual`,
  `EstimateError::new`, the `OrderMap` builder) is modelled from the spec
  (zero radii / zero bin sizes / inverted spans are rejected; optional keys are
  present-iff-nonempty).  Each such definition carries a doc comment saying so.
* A Rust panic (reachable through `.unwrap()` in src/ordermaps.rs) is
  modelled as a distinguished failure `ExportErr.panicked`, separate from the
  `ConversionError` results that the code returns as values.
-/

/-- Extended rational modelling `f32` values used by the GUI: exact finite
values plus the two infinities used as sentinel bounds. -/
inductive F where
  | negInf : F
  | fin (q : ℚ) : F
  | posInf : F
deriving DecidableEq, Repr

instance (n : ℕ) : OfNat F n := ⟨F.fin n⟩

/-- Strict order on `F`, mirroring `<` on `f32` (no NaN). -/
def F.lt : F → F → Bool
  | _, .negInf => false
  | .negInf, .fin _ => true
  | .negInf, .posInf => true
  | .fin a, .fin b => decide (a < b)
  | .fin _, .posInf => true
  | .posInf, _ => false

/-- Non-strict order on `F`, mirroring `<=` on `f32` (no NaN). -/
def F.le : F → F → Bool
  | .negInf, _ => true
  | .fin _, .negInf => false
  | .fin a, .fin b => decide (a ≤ b)
  | .fin _, .posInf => true
  | .posInf, .posInf => true
  | .posInf, .fin _ => false
  | .posInf, .negInf => false

namespace Gorder

/-- Embeds `gorder::input::Axis`. -/
inductive Axis where
  | x | y | z
deriving DecidableEq, Repr

/-- Embeds `gorder::input::Frequency` (`Once` or `Every(NonZeroUsize)`). -/
inductive Frequency where
  | once : Frequency
  | every (n : ℕ+) : Frequency
deriving DecidableEq

/-- Embeds `gorder::input::DynamicNormal` (fields read via `heads()`, `radius()`). -/
structure DynamicNormal where
  heads : String
  radius : F
deriving DecidableEq

/-- Embeds `DynamicNormal::new(heads, radius)`.
Modelled from the spec: the membrane-normal builder rejects a missing heads
selection and a non-positive radius (`dynamic`: heads selection required,
radius>0 required); the gorder crate itself is not part of this repository. -/
def DynamicNormal.new (heads : String) (radius : F) : Except String DynamicNormal :=
  if heads = "" then .error "no heads selection provided for the dynamic membrane normal"
  else if !F.lt 0 radius then .error "radius of the dynamic membrane normal must be positive"
  else .ok { heads := heads, radius := radius }

/-- Embeds `gorder::input::MembraneNormal`.  The payload of the unsupported dense
per-frame map variant is irrelevant to guiorder and modelled as `Unit`. -/
inductive MembraneNormal where
  | static (axis : Axis) : MembraneNormal
  | dynamic (d : DynamicNormal) : MembraneNormal
  | fromFile (file : String) : MembraneNormal
  | fromMap (payload : Unit) : MembraneNormal
deriving DecidableEq

/-- Parameters of `LeafletClassification::Global`. -/
structure GlobalParams where
  membrane : String
  heads : String
  frequency : Frequency
  membrane_normal : Option Axis
deriving DecidableEq

/-- Parameters of `LeafletClassification::Local`. -/
structure LocalParams where
  membrane : String
  heads : String
  radius : F
  frequency : Frequency
  membrane_normal : Option Axis
deriving DecidableEq

/-- Parameters of `LeafletClassification::Individual`. -/
structure IndividualParams where
  heads : String
  methyls : String
  frequency : Frequency
  membrane_normal : Option Axis
deriving DecidableEq

/-- Parameters of `LeafletClassification::Clustering`. -/
structure ClusteringParams where
  heads : String
  frequency : Frequency
deriving DecidableEq

/-- Parameters of `LeafletClassification::FromFile`. -/
structure FromFileParams where
  file : String
  frequency : Frequency
deriving DecidableEq

/-- Parameters of `LeafletClassification::FromNdx` (`ndx` is an ordered list). -/
structure FromNdxParams where
  ndx : List String
  heads : String
  upper_leaflet : String
  lower_leaflet : String
  frequency : Frequency
deriving DecidableEq

/-- Embeds `gorder::input::LeafletClassification`. -/
inductive LeafletClassification where
  | global (p : GlobalParams) : LeafletClassification
  | local_ (p : LocalParams) : LeafletClassification
  | individual (p : IndividualParams) : LeafletClassification
  | clustering (p : ClusteringParams) : LeafletClassification
  | fromFile (p : FromFileParams) : LeafletClassification
  | fromNdx (p : FromNdxParams) : LeafletClassification
  | fromMap (payload : Unit) : LeafletClassification
deriving DecidableEq

/-- Embeds `LeafletClassification::global(membrane, heads)`: default frequency is
every frame, no membrane-normal override. -/
def LeafletClassification.mkGlobal (membrane heads : String) : LeafletClassification :=
  .global { membrane := membrane, heads := heads, frequency := .every 1, membrane_normal := none }

/-- Embeds `LeafletClassification::local(membrane, heads, radius)`. -/
def LeafletClassification.mkLocal (membrane heads : String) (radius : F) : LeafletClassification :=
  .local_ { membrane := membrane, heads := heads, radius := radius,
            frequency := .every 1, membrane_normal := none }

/-- Embeds `LeafletClassification::individual(heads, methyls)`. -/
def LeafletClassification.mkIndividual (heads methyls : String) : LeafletClassification :=
  .individual { heads := heads, methyls := methyls, frequency := .every 1,
                membrane_normal := none }

/-- Embeds `LeafletClassification::clustering(heads)`. -/
def LeafletClassification.mkClustering (heads : String) : LeafletClassification :=
  .clustering { heads := heads, frequency := .every 1 }

/-- Embeds `LeafletClassification::from_file(file)`. -/
def LeafletClassification.mkFromFile (file : String) : LeafletClassification :=
  .fromFile { file := file, frequency := .every 1 }

/-- Embeds `LeafletClassification::from_ndx(ndx, heads, upper, lower)`. -/
def LeafletClassification.mkFromNdx (ndx : List String) (heads upper lower : String) :
    LeafletClassification :=
  .fromNdx { ndx := ndx, heads := heads, upper_leaflet := upper, lower_leaflet := lower,
             frequency := .every 1 }

/-- Embeds `LeafletClassification::with_frequency`. -/
def LeafletClassification.with_frequency :
    LeafletClassification → Frequency → LeafletClassification
  | .global p, f => .global { p with frequency := f }
  | .local_ p, f => .local_ { p with frequency := f }
  | .individual p, f => .individual { p with frequency := f }
  | .clustering p, f => .clustering { p with frequency := f }
  | .fromFile p, f => .fromFile { p with frequency := f }
  | .fromNdx p, f => .fromNdx { p with frequency := f }
  | .fromMap u, _ => .fromMap u

/-- Embeds `LeafletClassification::with_membrane_normal` (only the normal-dependent
methods carry an override; the others are returned unchanged). -/
def LeafletClassification.with_membrane_normal :
    LeafletClassification → Axis → LeafletClassification
  | .global p, a => .global { p with membrane_normal := some a }
  | .local_ p, a => .local_ { p with membrane_normal := some a }
  | .individual p, a => .individual { p with membrane_normal := some a }
  | m, _ => m

/-- Frequency carried by a leaflet classification (`frequency()` accessor). -/
def LeafletClassification.frequency : LeafletClassification → Frequency
  | .global p => p.frequency
  | .local_ p => p.frequency
  | .individual p => p.frequency
  | .clustering p => p.frequency
  | .fromFile p => p.frequency
  | .fromNdx p => p.frequency
  | .fromMap _ => .every 1

/-- Embeds `gorder::input::EstimateError` (accessors `n_blocks()`, `output_convergence()`). -/
structure EstimateError where
  n_blocks : ℕ
  output_convergence : Option String
deriving DecidableEq

/-- Embeds `EstimateError::new(n_blocks, output_convergence)`.
Modelled from the spec: the error-estimation builder can reject the block
count (the GUI constrains it to at least 2); the gorder crate itself is not
part of this repository. -/
def EstimateError.new (n_blocks : Option ℕ) (output_convergence : Option String) :
    Except String EstimateError :=
  let n := n_blocks.getD 5
  if n < 2 then .error "at least two blocks are required for error estimation"
  else .ok { n_blocks := n, output_convergence := output_convergence }

/-- Embeds `gorder::prelude::Vector3D` (three coordinates). -/
structure Vector3D where
  x : F
  y : F
  z : F
deriving DecidableEq

/-- Embeds `Vector3D::default()`. -/
def Vector3D.default : Vector3D := { x := 0, y := 0, z := 0 }

/-- Embeds `gorder::input::GeomReference`. -/
inductive GeomReference where
  | center : GeomReference
  | point (v : Vector3D) : GeomReference
  | selection (query : String) : GeomReference
deriving DecidableEq

/-- Payload of `Geometry::Cuboid` (accessors `reference()`, `xdim()`, `ydim()`, `zdim()`). -/
structure CuboidGeom where
  reference : GeomReference
  xdim : F × F
  ydim : F × F
  zdim : F × F
deriving DecidableEq

/-- Payload of `Geometry::Cylinder` (accessors `reference()`, `radius()`, `span()`, `orientation()`). -/
structure CylinderGeom where
  reference : GeomReference
  radius : F
  span : F × F
  orientation : Axis
deriving DecidableEq

/-- Payload of `Geometry::Sphere` (accessors `reference()`, `radius()`). -/
structure SphereGeom where
  reference : GeomReference
  radius : F
deriving DecidableEq

/-- Embeds `gorder::input::Geometry`. -/
inductive Geometry where
  | cuboid (p : CuboidGeom) : Geometry
  | cylinder (p : CylinderGeom) : Geometry
  | sphere (p : SphereGeom) : Geometry
deriving DecidableEq

/-- Embeds `Geometry::cuboid(reference, xdim, ydim, zdim)`.
Modelled from the spec: the geometry builder rejects malformed bounds
(a span whose start exceeds its end); the gorder crate itself is not part of
this repository. -/
def Geometry.mkCuboid (reference : GeomReference) (xdim ydim zdim : F × F) :
    Except String Geometry :=
  if !(F.le xdim.1 xdim.2 && F.le ydim.1 ydim.2 && F.le zdim.1 zdim.2) then
    .error "invalid dimensions of the cuboid"
  else
    .ok (.cuboid { reference := reference, xdim := xdim, ydim := ydim, zdim := zdim })

/-- Embeds `Geometry::cylinder(reference, radius, span, orientation)`.
Modelled from the spec: the geometry builder rejects a non-positive radius and
a malformed span; the gorder crate itself is not part of this repository. -/
def Geometry.mkCylinder (reference : GeomReference) (radius : F) (span : F × F)
    (orientation : Axis) : Except String Geometry :=
  if !F.lt 0 radius then .error "radius of the cylinder must be positive"
  else if !F.le span.1 span.2 then .error "invalid span of the cylinder"
  else
    .ok (.cylinder { reference := reference, radius := radius, span := span,
                     orientation := orientation })

/-- Embeds `Geometry::sphere(reference, radius)`.
Modelled from the spec: the geometry builder rejects a non-positive radius;
the gorder crate itself is not part of this repository. -/
def Geometry.mkSphere (reference : GeomReference) (radius : F) : Except String Geometry :=
  if !F.lt 0 radius then .error "radius of the sphere must be positive"
  else .ok (.sphere { reference := reference, radius := radius })

/-- Embeds `gorder::input::GridSpan`. -/
inductive GridSpan where
  | auto : GridSpan
  | manual (start : F) (stop : F) : GridSpan
deriving DecidableEq

/-- Embeds `GridSpan::manual(start, end)`.
Modelled from the spec: a manual span whose start exceeds its end is rejected;
the gorder crate itself is not part of this repository. -/
def GridSpan.mkManual (start stop : F) : Except String GridSpan :=
  if !F.le start stop then .error "grid span start is greater than grid span end"
  else .ok (.manual start stop)

/-- Embeds `gorder::input::Plane`. -/
inductive Plane where
  | xy | xz | yz
deriving DecidableEq

/-- Embeds `gorder::input::OrderMap` (accessors `output_directory()`, `plane()`,
`bin_size()`, `dim()`, `min_samples()`). -/
structure OrderMap where
  output_directory : Option String
  plane : Option Plane
  bin_size : F × F
  dim : GridSpan × GridSpan
  min_samples : ℕ
deriving DecidableEq

/-- The `OrderMap` builder: `builder().output_directory(d).bin_size(b).dim(g)
.min_samples(m)` with an optional `.plane(p)`, followed by `.build()`.
Modelled from the spec: the builder rejects a non-positive bin size, and an
optional key is present exactly when a non-empty value was supplied (§6
omission convention); the gorder crate itself is not part of this repository. -/
def OrderMap.build (output_directory : String) (plane : Option Plane)
    (bin_size : F × F) (dim : GridSpan × GridSpan) (min_samples : ℕ) :
    Except String OrderMap :=
  if !(F.lt 0 bin_size.1 && F.lt 0 bin_size.2) then
    .error "bin size of the ordermap must be positive"
  else
    .ok { output_directory := if output_directory = "" then none else some output_directory,
          plane := plane, bin_size := bin_size, dim := dim, min_samples := min_samples }

/-- Embeds `gorder::input::AnalysisType`. -/
inductive AnalysisType where
  | aaorder (heavy_atoms hydrogens : String) : AnalysisType
  | cgorder (beads : String) : AnalysisType
  | uaorder (saturated unsaturated ignore : Option String) : AnalysisType
deriving DecidableEq

/-- Does the document supply its membrane normals as a dense per-frame map? -/
def MembraneNormal.isFromMap : MembraneNormal → Bool
  | .fromMap _ => true
  | _ => false

/-- Does a leaflet classification supply its assignment as a dense per-frame map? -/
def LeafletClassification.isFromMap : LeafletClassification → Bool
  | .fromMap _ => true
  | _ => false

/-- Embeds `gorder::input::Analysis`: the configuration document, with the fields read
by the guiorder import (`structure()`, `trajectory()`, `index()`, `bonds()`,
output paths, `analysis_type()`, `membrane_normal()`, `leaflets()`,
`estimate_error()`, `begin()`, `end()`, `step()`, `geometry()`, `map()`,
`min_samples()`, `n_threads()`, `handle_pbc()`, `overwrite()`, `silent()`). -/
structure Analysis where
  structure_file : String
  trajectory : List String
  index : Option String
  bonds : Option String
  output_yaml : String
  output_tab : Option String
  output_csv : Option String
  output_xvg : Option String
  analysis_type : AnalysisType
  membrane_normal : MembraneNormal
  leaflets : Option LeafletClassification
  estimate_error : Option EstimateError
  begin : F
  stop : F
  step : ℕ
  geometry : Option Geometry
  map : Option OrderMap
  min_samples : ℕ
  n_threads : ℕ
  handle_pbc : Bool
  overwrite : Bool
  silent : Bool
deriving DecidableEq

end Gorder

namespace Gui

/-- Embeds `ConversionError` (src/error.rs), without the terminal colouring. -/
inductive ConversionError where
  | fromMapNormals : ConversionError
  | fromMapLeaflets : ConversionError
  | invalidOrderMapParams (details : String) : ConversionError
  | invalidAnalysisParams (details : String) : ConversionError
  | invalidEstimateError (details : String) : ConversionError
  | invalidMembraneNormal (details : String) : ConversionError
  | invalidGeometryParams (details : String) : ConversionError
deriving DecidableEq

/-- Outcome of a fallible export step: either a `ConversionError` returned as a
value by the Rust code, or a panic raised by an `.unwrap()` on the way. -/
inductive ExportErr where
  | panicked (msg : String) : ExportErr
  | conv (e : ConversionError) : ExportErr
deriving DecidableEq

/-- Embeds `MembraneNormal` (src/common.rs): direction of the global membrane normal. -/
inductive MembraneNormal where
  | x | y | z | dynamic | fromFile
deriving DecidableEq

/-- Embeds `Default` for `MembraneNormal` (src/common.rs: `#[default]` on `Z`). -/
def MembraneNormal.default : MembraneNormal := .z

/-- Embeds `impl From<Axis> for MembraneNormal` (src/common.rs). -/
def MembraneNormal.fromAxis : Gorder.Axis → MembraneNormal
  | .x => .x
  | .y => .y
  | .z => .z

/-- Embeds `impl TryFrom<gorder::input::MembraneNormal> for MembraneNormal` (src/common.rs). -/
def MembraneNormal.tryFrom : Gorder.MembraneNormal → Except ConversionError MembraneNormal
  | .static axis => .ok (MembraneNormal.fromAxis axis)
  | .dynamic _ => .ok .dynamic
  | .fromFile _ => .ok .fromFile
  | .fromMap _ => .error .fromMapNormals

/-- Embeds `DynamicNormalParams` (src/membrane_normal.rs). -/
structure DynamicNormalParams where
  heads : String
  radius : F
deriving DecidableEq

/-- Embeds `Default` for `DynamicNormalParams` (src/membrane_normal.rs). -/
def DynamicNormalParams.default : DynamicNormalParams := { heads := "", radius := 2 }

/-- Embeds `impl TryFrom<gorder::input::MembraneNormal> for DynamicNormalParams`
(src/membrane_normal.rs). -/
def DynamicNormalParams.tryFrom :
    Gorder.MembraneNormal → Except ConversionError DynamicNormalParams
  | .dynamic d => .ok { heads := d.heads, radius := d.radius }
  | .fromMap _ => .error .fromMapNormals
  | .static _ => .ok DynamicNormalParams.default
  | .fromFile _ => .ok DynamicNormalParams.default

/-- Embeds `LeafletClassification` (src/leaflets.rs): leaflet assignment method tag. -/
inductive LeafletClassification where
  | none | global | local_ | individual | clustering | fromFile | fromNdx
deriving DecidableEq

/-- Embeds `Default` for `LeafletClassification` (src/leaflets.rs: `#[default]` on `None`). -/
def LeafletClassification.default : LeafletClassification := .none

/-- Embeds `impl TryFrom<Option<gorder::input::LeafletClassification>> for
LeafletClassification` (src/leaflets.rs). -/
def LeafletClassification.tryFrom :
    Option Gorder.LeafletClassification → Except ConversionError LeafletClassification
  | Option.none => .ok .none
  | some (.global _) => .ok .global
  | some (.local_ _) => .ok .local_
  | some (.individual _) => .ok .individual
  | some (.clustering _) => .ok .clustering
  | some (.fromFile _) => .ok .fromFile
  | some (.fromNdx _) => .ok .fromNdx
  | some (.fromMap _) => .error .fromMapLeaflets

/-- Embeds `LeafletGlobalParams` (src/leaflets.rs). -/
structure LeafletGlobalParams where
  membrane : String
  heads : String
deriving DecidableEq

/-- Embeds `Default` for `LeafletGlobalParams`. -/
def LeafletGlobalParams.default : LeafletGlobalParams := { membrane := "", heads := "" }

/-- Embeds `LeafletGlobalParams::sanity_check` (src/leaflets.rs). -/
def LeafletGlobalParams.sanity_check (p : LeafletGlobalParams) : Bool :=
  !(p.membrane = "") && !(p.heads = "")

/-- Embeds `LeafletLocalParams` (src/leaflets.rs). -/
structure LeafletLocalParams where
  membrane : String
  heads : String
  radius : F
deriving DecidableEq

/-- Embeds `Default` for `LeafletLocalParams` (src/leaflets.rs: radius 2.5). -/
def LeafletLocalParams.default : LeafletLocalParams :=
  { membrane := "", heads := "", radius := .fin (Rat.mk' 5 2) }

/-- Embeds `LeafletLocalParams::sanity_check` (src/leaflets.rs). -/
def LeafletLocalParams.sanity_check (p : LeafletLocalParams) : Bool :=
  !(p.membrane = "") && !(p.heads = "") && F.lt 0 p.radius

/-- Embeds `LeafletIndividualParams` (src/leaflets.rs). -/
structure LeafletIndividualParams where
  heads : String
  methyls : String
deriving DecidableEq

/-- Embeds `Default` for `LeafletIndividualParams`. -/
def LeafletIndividualParams.default : LeafletIndividualParams := { heads := "", methyls := "" }

/-- Embeds `LeafletIndividualParams::sanity_check` (src/leaflets.rs). -/
def LeafletIndividualParams.sanity_check (p : LeafletIndividualParams) : Bool :=
  !(p.heads = "") && !(p.methyls = "")

/-- Embeds `LeafletClusteringParams` (src/leaflets.rs). -/
structure LeafletClusteringParams where
  heads : String
deriving DecidableEq

/-- Embeds `Default` for `LeafletClusteringParams`. -/
def LeafletClusteringParams.default : LeafletClusteringParams := { heads := "" }

/-- Embeds `LeafletClusteringParams::sanity_check` (src/leaflets.rs). -/
def LeafletClusteringParams.sanity_check (p : LeafletClusteringParams) : Bool :=
  !(p.heads = "")

/-- Embeds `LeafletFromFileParams` (src/leaflets.rs). -/
structure LeafletFromFileParams where
  file : String
deriving DecidableEq

/-- Embeds `Default` for `LeafletFromFileParams`. -/
def LeafletFromFileParams.default : LeafletFromFileParams := { file := "" }

/-- Embeds `LeafletFromFileParams::sanity_check` (src/leaflets.rs). -/
def LeafletFromFileParams.sanity_check (p : LeafletFromFileParams) : Bool :=
  !(p.file = "")

/-- Embeds `LeafletFromNdxParams` (src/leaflets.rs). -/
structure LeafletFromNdxParams where
  heads : String
  ndx : List String
  upper_leaflet : String
  lower_leaflet : String
deriving DecidableEq

/-- Embeds `Default` for `LeafletFromNdxParams`. -/
def LeafletFromNdxParams.default : LeafletFromNdxParams :=
  { heads := "", ndx := [], upper_leaflet := "", lower_leaflet := "" }

/-- Embeds `LeafletFromNdxParams::sanity_check` (src/leaflets.rs, lines 463-469):
`!heads.is_empty() && !ndx.iter().any(|file| file.is_empty()) &&
!upper_leaflet.is_empty() && !lower_leaflet.is_empty()`. -/
def LeafletFromNdxParams.sanity_check (p : LeafletFromNdxParams) : Bool :=
  !(p.heads = "") && !(p.ndx.any (fun file => file = "")) &&
    !(p.upper_leaflet = "") && !(p.lower_leaflet = "")

/-- Embeds `LeafletClassificationParams` (src/leaflets.rs). -/
structure LeafletClassificationParams where
  global_params : LeafletGlobalParams
  local_params : LeafletLocalParams
  individual_params : LeafletIndividualParams
  clustering_params : LeafletClusteringParams
  from_file_params : LeafletFromFileParams
  from_ndx_params : LeafletFromNdxParams
  frequency : Gorder.Frequency
  membrane_normal : Option MembraneNormal
deriving DecidableEq

/-- Embeds `Default` for `LeafletClassificationParams` (frequency defaults to
`Frequency::Every(1)` in gorder). -/
def LeafletClassificationParams.default : LeafletClassificationParams :=
  { global_params := LeafletGlobalParams.default
    local_params := LeafletLocalParams.default
    individual_params := LeafletIndividualParams.default
    clustering_params := LeafletClusteringParams.default
    from_file_params := LeafletFromFileParams.default
    from_ndx_params := LeafletFromNdxParams.default
    frequency := .every 1
    membrane_normal := Option.none }

/-- Embeds `convert_axis_option` (src/leaflets.rs). -/
def convert_axis_option : Option Gorder.Axis → Option MembraneNormal
  | Option.none => Option.none
  | some a => some (MembraneNormal.fromAxis a)

/-- Embeds `impl TryFrom<Option<gorder::input::LeafletClassification>> for
LeafletClassificationParams` (src/leaflets.rs, lines 91-160). -/
def LeafletClassificationParams.tryFrom :
    Option Gorder.LeafletClassification → Except ConversionError LeafletClassificationParams
  | Option.none => .ok LeafletClassificationParams.default
  | some (.global p) =>
      .ok { LeafletClassificationParams.default with
            global_params := { membrane := p.membrane, heads := p.heads }
            frequency := p.frequency
            membrane_normal := convert_axis_option p.membrane_normal }
  | some (.local_ p) =>
      .ok { LeafletClassificationParams.default with
            local_params := { membrane := p.membrane, heads := p.heads, radius := p.radius }
            frequency := p.frequency
            membrane_normal := convert_axis_option p.membrane_normal }
  | some (.individual p) =>
      .ok { LeafletClassificationParams.default with
            individual_params := { heads := p.heads, methyls := p.methyls }
            frequency := p.frequency
            membrane_normal := convert_axis_option p.membrane_normal }
  | some (.clustering p) =>
      .ok { LeafletClassificationParams.default with
            clustering_params := { heads := p.heads }
            frequency := p.frequency }
  | some (.fromFile p) =>
      .ok { LeafletClassificationParams.default with
            from_file_params := { file := p.file }
            frequency := p.frequency }
  | some (.fromNdx p) =>
      .ok { LeafletClassificationParams.default with
            from_ndx_params := { ndx := p.ndx, heads := p.heads,
                                 upper_leaflet := p.upper_leaflet,
                                 lower_leaflet := p.lower_leaflet }
            frequency := p.frequency }
  | some (.fromMap _) => .error .fromMapLeaflets

/-- Embeds `RawFrequency` (src/leaflets.rs): state of the frequency radio selector. -/
inductive RawFrequency where
  | once | every | everyN
deriving DecidableEq

/-- The selector state computed on entry of `GuiAnalysis::specify_frequency`
(src/leaflets.rs, lines 596-600): `Frequency::Once` shows the "once" radio
with N = 0, `Frequency::Every(1)` the "every frame" radio with N = 1, and
`Frequency::Every(n)` with n > 1 the "every Nth frame" radio carrying n. -/
def freqSelector : Gorder.Frequency → RawFrequency × ℕ
  | .once => (.once, 0)
  | .every n => if n = 1 then (.every, 1) else (.everyN, n)

/-- Embeds `GeomSelection` (src/geometry.rs): geometric selection shape. -/
inductive GeomSelection where
  | none | cuboid | cylinder | sphere
deriving DecidableEq

/-- Embeds `Default` for `GeomSelection` (`#[default]` on `None`). -/
def GeomSelection.default : GeomSelection := .none

/-- Embeds `impl From<Option<gorder::input::Geometry>> for GeomSelection` (src/geometry.rs). -/
def GeomSelection.from : Option Gorder.Geometry → GeomSelection
  | Option.none => .none
  | some (.cuboid _) => .cuboid
  | some (.cylinder _) => .cylinder
  | some (.sphere _) => .sphere

/-- Embeds `GeomReferenceType` (src/geometry.rs). -/
inductive GeomReferenceType where
  | point | selection | center
deriving DecidableEq

/-- Embeds `Default` for `GeomReferenceType` (`#[default]` on `Point`). -/
def GeomReferenceType.default : GeomReferenceType := .point

/-- Embeds `impl From<gorder::input::GeomReference> for GeomReferenceType` (src/geometry.rs). -/
def GeomReferenceType.from : Gorder.GeomReference → GeomReferenceType
  | .center => .center
  | .point _ => .point
  | .selection _ => .selection

/-- Embeds `CuboidParams` (src/geometry.rs). -/
structure CuboidParams where
  minx : F
  maxx : F
  miny : F
  maxy : F
  minz : F
  maxz : F
deriving DecidableEq

/-- Embeds `Default` for `CuboidParams` (all axes spanning the whole space). -/
def CuboidParams.default : CuboidParams :=
  { minx := .negInf, maxx := .posInf, miny := .negInf, maxy := .posInf,
    minz := .negInf, maxz := .posInf }

/-- Embeds `CylinderParams` (src/geometry.rs). -/
structure CylinderParams where
  radius : F
  start : F
  stop : F
  orientation : Gorder.Axis
deriving DecidableEq

/-- Embeds `Default` for `CylinderParams` (radius 5, infinite span, z orientation). -/
def CylinderParams.default : CylinderParams :=
  { radius := 5, start := .negInf, stop := .posInf, orientation := .z }

/-- Embeds `CylinderParams::sanity_check` (src/geometry.rs). -/
def CylinderParams.sanity_check (p : CylinderParams) : Bool :=
  F.lt 0 p.radius

/-- Embeds `SphereParams` (src/geometry.rs). -/
structure SphereParams where
  radius : F
deriving DecidableEq

/-- Embeds `Default` for `SphereParams` (radius 5). -/
def SphereParams.default : SphereParams := { radius := 5 }

/-- Embeds `SphereParams::sanity_check` (src/geometry.rs). -/
def SphereParams.sanity_check (p : SphereParams) : Bool :=
  F.lt 0 p.radius

/-- Embeds `GeomSelectionParams` (src/geometry.rs). -/
structure GeomSelectionParams where
  cuboid : CuboidParams
  cylinder : CylinderParams
  sphere : SphereParams
  reference_type : GeomReferenceType
  ref_point : Gorder.Vector3D
  ref_selection : String
deriving DecidableEq

/-- Embeds `Default` for `GeomSelectionParams`. -/
def GeomSelectionParams.default : GeomSelectionParams :=
  { cuboid := CuboidParams.default, cylinder := CylinderParams.default,
    sphere := SphereParams.default, reference_type := GeomReferenceType.default,
    ref_point := Gorder.Vector3D.default, ref_selection := "" }

/-- Embeds `get_static_reference_point` (src/geometry.rs). -/
def get_static_reference_point : Gorder.GeomReference → Gorder.Vector3D
  | .point v => v
  | _ => Gorder.Vector3D.default

/-- Embeds `get_reference_selection` (src/geometry.rs). -/
def get_reference_selection : Gorder.GeomReference → String
  | .selection s => s
  | _ => ""

/-- Embeds `impl From<Option<gorder::input::Geometry>> for GeomSelectionParams`
(src/geometry.rs, lines 45-86). -/
def GeomSelectionParams.from : Option Gorder.Geometry → GeomSelectionParams
  | Option.none => GeomSelectionParams.default
  | some (.cuboid p) =>
      { GeomSelectionParams.default with
        cuboid := { minx := p.xdim.1, maxx := p.xdim.2, miny := p.ydim.1, maxy := p.ydim.2,
                    minz := p.zdim.1, maxz := p.zdim.2 }
        reference_type := GeomReferenceType.from p.reference
        ref_point := get_static_reference_point p.reference
        ref_selection := get_reference_selection p.reference }
  | some (.cylinder p) =>
      { GeomSelectionParams.default with
        cylinder := { radius := p.radius, start := p.span.1, stop := p.span.2,
                      orientation := p.orientation }
        reference_type := GeomReferenceType.from p.reference
        ref_point := get_static_reference_point p.reference
        ref_selection := get_reference_selection p.reference }
  | some (.sphere p) =>
      { GeomSelectionParams.default with
        sphere := { radius := p.radius }
        reference_type := GeomReferenceType.from p.reference
        ref_point := get_static_reference_point p.reference
        ref_selection := get_reference_selection p.reference }

/-- Embeds `impl From<&GeomSelectionParams> for gorder::input::GeomReference` (src/geometry.rs). -/
def GeomSelectionParams.toReference (p : GeomSelectionParams) : Gorder.GeomReference :=
  match p.reference_type with
  | .point => .point p.ref_point
  | .selection => .selection p.ref_selection
  | .center => .center

/-- Embeds `OrderMapDimension` (src/ordermaps.rs). -/
inductive OrderMapDimension where
  | auto | manual
deriving DecidableEq

/-- Embeds `Default` for `OrderMapDimension` (`#[default]` on `Auto`). -/
def OrderMapDimension.default : OrderMapDimension := .auto

/-- Embeds `impl From<gorder::input::GridSpan> for OrderMapDimension` (src/ordermaps.rs). -/
def OrderMapDimension.from : Gorder.GridSpan → OrderMapDimension
  | .auto => .auto
  | .manual _ _ => .manual

/-- Embeds `Plane` (src/ordermaps.rs): plane of the ordermaps, including the
`Unknown` marker used when it cannot be derived from the membrane normal. -/
inductive Plane where
  | unknown | xy | yz | xz
deriving DecidableEq

/-- Embeds `Default` for `Plane` (`#[default]` on `XY`). -/
def Plane.default : Plane := .xy

/-- Embeds `ManualDimensions` (src/ordermaps.rs). -/
structure ManualDimensions where
  start : F
  stop : F
deriving DecidableEq

/-- Embeds `Default` for `ManualDimensions` (0 to 10). -/
def ManualDimensions.default : ManualDimensions := { start := 0, stop := 10 }

/-- Embeds `impl From<gorder::input::GridSpan> for ManualDimensions` (src/ordermaps.rs). -/
def ManualDimensions.from : Gorder.GridSpan → ManualDimensions
  | .auto => ManualDimensions.default
  | .manual start stop => { start := start, stop := stop }

/-- Embeds `OrderMapsParams` (src/ordermaps.rs). -/
structure OrderMapsParams where
  calculate_maps : Bool
  output_directory : String
  plane : Option Plane
  bin_size : F × F
  dimensions : OrderMapDimension × OrderMapDimension
  x_manual : ManualDimensions
  y_manual : ManualDimensions
  min_samples : ℕ
deriving DecidableEq

/-- Embeds `Default` for `OrderMapsParams` (src/ordermaps.rs: maps off, bin size 0.1,
automatic dimensions, one sample). -/
def OrderMapsParams.default : OrderMapsParams :=
  { calculate_maps := false, output_directory := "", plane := Option.none,
    bin_size := (.fin (Rat.mk' 1 10), .fin (Rat.mk' 1 10)),
    dimensions := (OrderMapDimension.default, OrderMapDimension.default),
    x_manual := ManualDimensions.default, y_manual := ManualDimensions.default,
    min_samples := 1 }

/-- Embeds `impl From<Option<gorder::input::OrderMap>> for OrderMapsParams`
(src/ordermaps.rs, lines 90-114). -/
def OrderMapsParams.from : Option Gorder.OrderMap → OrderMapsParams
  | Option.none => { OrderMapsParams.default with calculate_maps := false }
  | some m =>
      { calculate_maps := true
        output_directory := m.output_directory.getD ""
        plane := match m.plane with
          | Option.none => Option.none
          | some .xy => some Plane.xy
          | some .xz => some Plane.xz
          | some .yz => some Plane.yz
        bin_size := m.bin_size
        dimensions := (OrderMapDimension.from m.dim.1, OrderMapDimension.from m.dim.2)
        x_manual := ManualDimensions.from m.dim.1
        y_manual := ManualDimensions.from m.dim.2
        min_samples := m.min_samples }

/-- One dimension of the ordermap grid as assembled by the export conversion
(src/ordermaps.rs, lines 123-135): `Auto` passes through, `Manual` calls
`GridSpan::manual(start, end).unwrap()` — the `.unwrap()` panic is modelled as
`ExportErr.panicked`. -/
def dimSpan (d : OrderMapDimension) (m : ManualDimensions) :
    Except ExportErr Gorder.GridSpan :=
  match d with
  | .auto => .ok .auto
  | .manual =>
      match Gorder.GridSpan.mkManual m.start m.stop with
      | .ok g => .ok g
      | .error e => .error (.panicked e)

/-- Conversion of the chosen plane on export (src/ordermaps.rs, lines
145-158): `Plane::Unknown` is rejected with `InvalidOrderMapParams`. -/
def planeTry : Option Plane → Except ExportErr (Option Gorder.Plane)
  | Option.none => .ok Option.none
  | some .xy => .ok (some Gorder.Plane.xy)
  | some .xz => .ok (some Gorder.Plane.xz)
  | some .yz => .ok (some Gorder.Plane.yz)
  | some .unknown => .error (.conv (.invalidOrderMapParams "unknown plane"))

/-- Embeds `impl TryFrom<&OrderMapsParams> for Option<gorder::input::OrderMap>`
(src/ordermaps.rs, lines 116-166): dimensions first (possibly panicking on a
malformed manual span), then the plane, then the builder. -/
def OrderMapsParams.tryInto (value : OrderMapsParams) :
    Except ExportErr (Option Gorder.OrderMap) :=
  if !value.calculate_maps then .ok Option.none
  else do
    let dimension_x ← dimSpan value.dimensions.1 value.x_manual
    let dimension_y ← dimSpan value.dimensions.2 value.y_manual
    let plane ← planeTry value.plane
    match Gorder.OrderMap.build value.output_directory plane value.bin_size
        (dimension_x, dimension_y) value.min_samples with
    | .ok m => .ok (some m)
    | .error e => .error (.conv (.invalidOrderMapParams e))

/-- Embeds `AnalysisType` (src/analysis_types.rs). -/
inductive AnalysisType where
  | aaorder | uaorder | cgorder
deriving DecidableEq

/-- Embeds `Default` for `AnalysisType` (`#[default]` on `AAOrder`). -/
def AnalysisType.default : AnalysisType := .aaorder

/-- Embeds `impl From<gorder::input::AnalysisType> for AnalysisType` (src/analysis_types.rs). -/
def AnalysisType.from : Gorder.AnalysisType → AnalysisType
  | .aaorder _ _ => .aaorder
  | .cgorder _ => .cgorder
  | .uaorder _ _ _ => .uaorder

/-- Embeds `AAParams` (src/analysis_types.rs). -/
structure AAParams where
  heavy_atoms : String
  hydrogens : String
deriving DecidableEq

/-- Embeds `CGParams` (src/analysis_types.rs). -/
structure CGParams where
  beads : String
deriving DecidableEq

/-- Embeds `UAParams` (src/analysis_types.rs). -/
structure UAParams where
  saturated : String
  unsaturated : String
  ignore : String
deriving DecidableEq

/-- Embeds `AnalysisTypeParams` (src/analysis_types.rs). -/
structure AnalysisTypeParams where
  aa_params : AAParams
  ua_params : UAParams
  cg_params : CGParams
deriving DecidableEq

/-- Embeds `Default` for `AnalysisTypeParams`. -/
def AnalysisTypeParams.default : AnalysisTypeParams :=
  { aa_params := { heavy_atoms := "", hydrogens := "" },
    ua_params := { saturated := "", unsaturated := "", ignore := "" },
    cg_params := { beads := "" } }

/-- Embeds `impl From<gorder::input::AnalysisType> for AnalysisTypeParams`
(src/analysis_types.rs, lines 59-90). -/
def AnalysisTypeParams.from : Gorder.AnalysisType → AnalysisTypeParams
  | .aaorder heavy_atoms hydrogens =>
      { AnalysisTypeParams.default with
        aa_params := { heavy_atoms := heavy_atoms, hydrogens := hydrogens } }
  | .cgorder beads =>
      { AnalysisTypeParams.default with cg_params := { beads := beads } }
  | .uaorder saturated unsaturated ignore =>
      { AnalysisTypeParams.default with
        ua_params := { saturated := saturated.getD "", unsaturated := unsaturated.getD "",
                       ignore := ignore.getD "" } }

/-- Embeds `EstimateErrorParams` (src/estimate_error.rs). -/
structure EstimateErrorParams where
  estimate_error : Bool
  n_blocks : ℕ
  output_convergence : String
deriving DecidableEq

/-- Embeds `Default` for `EstimateErrorParams` (off, 5 blocks, no convergence file). -/
def EstimateErrorParams.default : EstimateErrorParams :=
  { estimate_error := false, n_blocks := 5, output_convergence := "" }

/-- Embeds `impl From<Option<gorder::input::EstimateError>> for EstimateErrorParams`
(src/estimate_error.rs, lines 28-45). -/
def EstimateErrorParams.from : Option Gorder.EstimateError → EstimateErrorParams
  | Option.none => { EstimateErrorParams.default with estimate_error := false }
  | some e =>
      { estimate_error := true
        n_blocks := e.n_blocks
        output_convergence := match e.output_convergence with
          | Option.none => ""
          | some s => s }

/-- Embeds `impl TryFrom<&EstimateErrorParams> for Option<gorder::input::EstimateError>`
(src/estimate_error.rs, lines 47-64). -/
def EstimateErrorParams.tryInto (value : EstimateErrorParams) :
    Except ExportErr (Option Gorder.EstimateError) :=
  if !value.estimate_error then .ok Option.none
  else
    let convergence := if value.output_convergence = "" then Option.none
                       else some value.output_convergence
    match Gorder.EstimateError.new (some value.n_blocks) convergence with
    | .ok e => .ok (some e)
    | .error e => .error (.conv (.invalidEstimateError e))

/-- Embeds `FrameSelectionParams` (src/frame_selection.rs). -/
structure FrameSelectionParams where
  begin : F
  stop : F
  step : ℕ
deriving DecidableEq

/-- Embeds `Default` for `FrameSelectionParams` (0 ps to infinity, every frame). -/
def FrameSelectionParams.default : FrameSelectionParams :=
  { begin := 0, stop := .posInf, step := 1 }

/-- Embeds `OtherParams` (src/other_options.rs). -/
structure OtherParams where
  min_samples : ℕ
  n_threads : ℕ
  handle_pbc : Bool
  overwrite : Bool
  silent : Bool
deriving DecidableEq

/-- Embeds `Default` for `OtherParams`. -/
def OtherParams.default : OtherParams :=
  { min_samples := 1, n_threads := 1, handle_pbc := true, overwrite := false, silent := false }

/-- Embeds `impl From<&gorder::input::Analysis> for OtherParams` (src/other_options.rs). -/
def OtherParams.from (a : Gorder.Analysis) : OtherParams :=
  { min_samples := a.min_samples, n_threads := a.n_threads, handle_pbc := a.handle_pbc,
    overwrite := a.overwrite, silent := a.silent }

/-- Embeds `OutputFiles`: output paths of the analysis.  The struct itself lives in
the crate root, which is not among the source files; its four fields are fixed
by their uses in src/convert.rs (`output_yaml`, `output_tab`, `output_csv`,
`output_xvg`). -/
structure OutputFiles where
  output_yaml : String
  output_csv : String
  output_tab : String
  output_xvg : String
deriving DecidableEq

/-- Embeds `Default` for `OutputFiles`. -/
def OutputFiles.default : OutputFiles :=
  { output_yaml := "", output_csv := "", output_tab := "", output_xvg := "" }

/-- Modelled from the spec: the crate-root `impl From<&Analysis> for OutputFiles`
used by src/convert.rs line 18 is not among the source files.  Per the spec the
YAML path is always carried over and the optional CSV/Table/XVG paths become
empty strings when absent (mirroring how every other optional path is imported). -/
def OutputFiles.fromAnalysis (a : Gorder.Analysis) : OutputFiles :=
  { output_yaml := a.output_yaml
    output_csv := a.output_csv.getD ""
    output_tab := a.output_tab.getD ""
    output_xvg := a.output_xvg.getD "" }

/-- Embeds `GuiAnalysis` (src/common.rs): the aggregate GUI state. -/
structure GuiAnalysis where
  structure_file : String
  trajectory : List String
  ndx : String
  bonds : String
  analysis_type : AnalysisType
  analysis_type_params : AnalysisTypeParams
  output : OutputFiles
  leaflet_classification_method : LeafletClassification
  leaflet_classification_params : LeafletClassificationParams
  membrane_normal : MembraneNormal
  dynamic_normal_params : DynamicNormalParams
  from_file_normals : String
  ordermaps_params : OrderMapsParams
  estimate_error_params : EstimateErrorParams
  frame_selection_params : FrameSelectionParams
  other_params : OtherParams
  geom_selection : GeomSelection
  geom_selection_params : GeomSelectionParams
deriving DecidableEq

/-- Embeds `Default` for `GuiAnalysis`. -/
def GuiAnalysis.default : GuiAnalysis :=
  { structure_file := "", trajectory := [], ndx := "", bonds := ""
    analysis_type := AnalysisType.default
    analysis_type_params := AnalysisTypeParams.default
    output := OutputFiles.default
    leaflet_classification_method := LeafletClassification.default
    leaflet_classification_params := LeafletClassificationParams.default
    membrane_normal := MembraneNormal.default
    dynamic_normal_params := DynamicNormalParams.default
    from_file_normals := ""
    ordermaps_params := OrderMapsParams.default
    estimate_error_params := EstimateErrorParams.default
    frame_selection_params := FrameSelectionParams.default
    other_params := OtherParams.default
    geom_selection := GeomSelection.default
    geom_selection_params := GeomSelectionParams.default }

/-- Embeds `GuiAnalysis::check_membrane_normal_sanity` (src/membrane_normal.rs, lines 144-153). -/
def GuiAnalysis.check_membrane_normal_sanity (g : GuiAnalysis) : Bool :=
  match g.membrane_normal with
  | .dynamic => !(g.dynamic_normal_params.heads = "") && F.lt 0 g.dynamic_normal_params.radius
  | .fromFile => !(g.from_file_normals = "")
  | _ => true

/-- Embeds `GuiAnalysis::check_leaflets_sanity` (src/leaflets.rs, lines 666-703). -/
def GuiAnalysis.check_leaflets_sanity (g : GuiAnalysis) : Bool :=
  (match g.leaflet_classification_method with
    | .none => true
    | .global => g.leaflet_classification_params.global_params.sanity_check
    | .local_ => g.leaflet_classification_params.local_params.sanity_check
    | .individual => g.leaflet_classification_params.individual_params.sanity_check
    | .clustering => g.leaflet_classification_params.clustering_params.sanity_check
    | .fromFile => g.leaflet_classification_params.from_file_params.sanity_check
    | .fromNdx => g.leaflet_classification_params.from_ndx_params.sanity_check)
  && (match g.leaflet_classification_method with
    | .global | .local_ | .individual =>
        !(g.membrane_normal = MembraneNormal.dynamic)
          || g.leaflet_classification_params.membrane_normal.isSome
    | _ => true)

/-- Embeds `GuiAnalysis::check_geometry_sanity` (src/geometry.rs, lines 533-549). -/
def GuiAnalysis.check_geometry_sanity (g : GuiAnalysis) : Bool :=
  let shape_valid :=
    match g.geom_selection with
    | .none | .cuboid => true
    | .cylinder => g.geom_selection_params.cylinder.sanity_check
    | .sphere => g.geom_selection_params.sphere.sanity_check
  let ref_selection_valid :=
    match g.geom_selection with
    | .none => true
    | _ =>
        !(g.geom_selection_params.reference_type = GeomReferenceType.selection)
          || !(g.geom_selection_params.ref_selection = "")
  shape_valid && ref_selection_valid

/-- Embeds `GuiAnalysis::check_ordermaps_sanity` (src/ordermaps.rs, lines 370-377). -/
def GuiAnalysis.check_ordermaps_sanity (g : GuiAnalysis) : Bool :=
  !g.ordermaps_params.calculate_maps
    || (!(g.ordermaps_params.output_directory = "")
        && (g.ordermaps_params.plane.isSome
            || !(g.membrane_normal = MembraneNormal.dynamic))
        && F.lt 0 g.ordermaps_params.bin_size.1
        && F.lt 0 g.ordermaps_params.bin_size.2)

/-- The `raw_plane` displayed by `GuiAnalysis::specify_ordermaps`
(src/ordermaps.rs, lines 198-207): the explicitly chosen plane if any,
otherwise the plane derived from the global membrane normal, which is
`Unknown` for the dynamic and from-file normals. -/
def GuiAnalysis.rawPlane (g : GuiAnalysis) : Plane :=
  match g.ordermaps_params.plane with
  | some p => p
  | Option.none =>
      match g.membrane_normal with
      | .x => .yz
      | .y => .xz
      | .z => .xy
      | .dynamic => .unknown
      | .fromFile => .unknown

/-- Embeds `impl TryFrom<Analysis> for GuiAnalysis` (src/convert.rs, lines 10-44):
the import direction.  Failure aborts the whole conversion (the `?` operator),
so no partially populated aggregate is ever produced. -/
def GuiAnalysis.tryFrom (a : Gorder.Analysis) : Except ConversionError GuiAnalysis := do
  let membrane_normal ← MembraneNormal.tryFrom a.membrane_normal
  let dynamic_normal_params ← DynamicNormalParams.tryFrom a.membrane_normal
  let leaflet_classification_method ← LeafletClassification.tryFrom a.leaflets
  let leaflet_classification_params ← LeafletClassificationParams.tryFrom a.leaflets
  .ok { structure_file := a.structure_file
        trajectory := a.trajectory
        ndx := a.index.getD ""
        bonds := a.bonds.getD ""
        output := OutputFiles.fromAnalysis a
        analysis_type := AnalysisType.from a.analysis_type
        analysis_type_params := AnalysisTypeParams.from a.analysis_type
        membrane_normal := membrane_normal
        dynamic_normal_params := dynamic_normal_params
        from_file_normals := match a.membrane_normal with
          | .fromFile x => x
          | _ => ""
        leaflet_classification_method := leaflet_classification_method
        leaflet_classification_params := leaflet_classification_params
        estimate_error_params := EstimateErrorParams.from a.estimate_error
        frame_selection_params := { begin := a.begin, stop := a.stop, step := a.step }
        geom_selection := GeomSelection.from a.geometry
        geom_selection_params := GeomSelectionParams.from a.geometry
        ordermaps_params := OrderMapsParams.from a.map
        other_params := OtherParams.from a }

/-- Empty strings become unset optional values on export ("include only if
non-empty", src/convert.rs lines 61-78 and src/analysis_types.rs lines 102-124). -/
def optOfString (s : String) : Option String :=
  if s = "" then Option.none else some s

/-- Embeds `impl From<&GuiAnalysis> for gorder::input::AnalysisType`
(src/analysis_types.rs, lines 92-127). -/
def GuiAnalysis.toGorderAnalysisType (g : GuiAnalysis) : Gorder.AnalysisType :=
  match g.analysis_type with
  | .aaorder => .aaorder g.analysis_type_params.aa_params.heavy_atoms
      g.analysis_type_params.aa_params.hydrogens
  | .cgorder => .cgorder g.analysis_type_params.cg_params.beads
  | .uaorder => .uaorder (optOfString g.analysis_type_params.ua_params.saturated)
      (optOfString g.analysis_type_params.ua_params.unsaturated)
      (optOfString g.analysis_type_params.ua_params.ignore)

/-- Embeds `impl TryFrom<&GuiAnalysis> for gorder::input::MembraneNormal`
(src/membrane_normal.rs, lines 42-62). -/
def GuiAnalysis.toGorderMembraneNormal (g : GuiAnalysis) :
    Except ExportErr Gorder.MembraneNormal :=
  match g.membrane_normal with
  | .x => .ok (.static .x)
  | .y => .ok (.static .y)
  | .z => .ok (.static .z)
  | .fromFile => .ok (.fromFile g.from_file_normals)
  | .dynamic =>
      match Gorder.DynamicNormal.new g.dynamic_normal_params.heads
          g.dynamic_normal_params.radius with
      | .ok d => .ok (.dynamic d)
      | .error e => .error (.conv (.invalidMembraneNormal e))

/-- Modelled from the spec: the crate-root `impl From<MembraneNormal> for Axis`
used by `add_normal` in src/leaflets.rs line 171 is not among the source files.
Only the static directions are ever passed to it (the leaflet override is set
from the x/y/z radio buttons or imported from an `Axis`); the dynamic and
from-file tags have no axis and are mapped arbitrarily. -/
def MembraneNormal.toAxis : MembraneNormal → Gorder.Axis
  | .x => .x
  | .y => .y
  | .z => .z
  | .dynamic => .z
  | .fromFile => .z

/-- Embeds `add_normal` (src/leaflets.rs, lines 166-175). -/
def add_normal (method : Gorder.LeafletClassification) (normal : Option MembraneNormal) :
    Gorder.LeafletClassification :=
  match normal with
  | some n => method.with_membrane_normal n.toAxis
  | Option.none => method

/-- Embeds `impl TryFrom<&GuiAnalysis> for Option<gorder::input::LeafletClassification>`
(src/leaflets.rs, lines 162-230). -/
def GuiAnalysis.toGorderLeaflets (g : GuiAnalysis) :
    Except ExportErr (Option Gorder.LeafletClassification) :=
  let params := g.leaflet_classification_params
  match g.leaflet_classification_method with
  | .none => .ok Option.none
  | .global => .ok (some (add_normal
      ((Gorder.LeafletClassification.mkGlobal params.global_params.membrane
        params.global_params.heads).with_frequency params.frequency)
      params.membrane_normal))
  | .local_ => .ok (some (add_normal
      ((Gorder.LeafletClassification.mkLocal params.local_params.membrane
        params.local_params.heads params.local_params.radius).with_frequency params.frequency)
      params.membrane_normal))
  | .individual => .ok (some (add_normal
      ((Gorder.LeafletClassification.mkIndividual params.individual_params.heads
        params.individual_params.methyls).with_frequency params.frequency)
      params.membrane_normal))
  | .clustering => .ok (some
      ((Gorder.LeafletClassification.mkClustering
        params.clustering_params.heads).with_frequency params.frequency))
  | .fromFile => .ok (some
      ((Gorder.LeafletClassification.mkFromFile
        params.from_file_params.file).with_frequency params.frequency))
  | .fromNdx => .ok (some
      ((Gorder.LeafletClassification.mkFromNdx params.from_ndx_params.ndx
        params.from_ndx_params.heads params.from_ndx_params.upper_leaflet
        params.from_ndx_params.lower_leaflet).with_frequency params.frequency))

/-- Embeds `impl TryFrom<&GuiAnalysis> for Option<gorder::input::Geometry>`
(src/geometry.rs, lines 88-121). -/
def GuiAnalysis.toGorderGeometry (g : GuiAnalysis) :
    Except ExportErr (Option Gorder.Geometry) :=
  let params := g.geom_selection_params
  let reference := params.toReference
  match g.geom_selection with
  | .none => .ok Option.none
  | .cuboid =>
      match Gorder.Geometry.mkCuboid reference (params.cuboid.minx, params.cuboid.maxx)
          (params.cuboid.miny, params.cuboid.maxy) (params.cuboid.minz, params.cuboid.maxz) with
      | .ok geo => .ok (some geo)
      | .error e => .error (.conv (.invalidGeometryParams e))
  | .cylinder =>
      match Gorder.Geometry.mkCylinder reference params.cylinder.radius
          (params.cylinder.start, params.cylinder.stop) params.cylinder.orientation with
      | .ok geo => .ok (some geo)
      | .error e => .error (.conv (.invalidGeometryParams e))
  | .sphere =>
      match Gorder.Geometry.mkSphere reference params.sphere.radius with
      | .ok geo => .ok (some geo)
      | .error e => .error (.conv (.invalidGeometryParams e))

/-- Embeds `impl TryFrom<&GuiAnalysis> for Analysis` (src/convert.rs, lines 46-129):
the export direction, assembling the document through the `Analysis` builder in
source order (membrane normal, error estimation, leaflet classification,
geometry, ordermaps).  Optional paths are included only if non-empty.  The
final `Analysis::builder().build()` call is modelled as accepting: every
required field has been set at this point and the per-component validation has
already run; a rejection there would surface as `InvalidAnalysisParams`. -/
def GuiAnalysis.tryInto (g : GuiAnalysis) : Except ExportErr Gorder.Analysis := do
  let analysis_type := g.toGorderAnalysisType
  let membrane_normal ← g.toGorderMembraneNormal
  let estimate_error ← g.estimate_error_params.tryInto
  let leaflets ← g.toGorderLeaflets
  let geometry ← g.toGorderGeometry
  let map ← g.ordermaps_params.tryInto
  .ok { structure_file := g.structure_file
        trajectory := g.trajectory
        index := optOfString g.ndx
        bonds := optOfString g.bonds
        output_yaml := g.output.output_yaml
        output_tab := optOfString g.output.output_tab
        output_csv := optOfString g.output.output_csv
        output_xvg := optOfString g.output.output_xvg
        analysis_type := analysis_type
        membrane_normal := membrane_normal
        leaflets := leaflets
        estimate_error := estimate_error
        begin := g.frame_selection_params.begin
        stop := g.frame_selection_params.stop
        step := g.frame_selection_params.step
        geometry := geometry
        map := map
        min_samples := g.other_params.min_samples
        n_threads := g.other_params.n_threads
        handle_pbc := g.other_params.handle_pbc
        overwrite := g.other_params.overwrite
        silent := g.other_params.silent }

end Gui

namespace Main

/-!
src/main.rs is an earlier, self-contained revision of the application: it
declares no modules and carries its own copies of the option enums, parameter
records and sanity checks, several of which differ from the module files
(no geometry group at all, no `FromFile` membrane normal, no radius check in
the local-leaflet and membrane-normal sanity checks, no bin-size check in the
ordermap sanity check, and united-atom parameters are required).  The
aggregate readiness check `check_sanity` (src/main.rs, lines 1377-1386) lives
here.  Parameter records whose fields coincide with the module versions
(`AnalysisTypeParams`, `OutputFiles`, `OrderMapsParams`, `DynamicNormalParams`,
and most leaflet parameter records) are reused from the `Gui` namespace; the
predicates below are transcribed from src/main.rs.
-/

/-- Embeds `MembraneNormal` (src/main.rs, lines 217-224): no from-file variant. -/
inductive MembraneNormal where
  | x | y | z | dynamic
deriving DecidableEq

/-- Embeds `LeafletIndividualParams` (src/main.rs, lines 130-141): unlike the module
version it carries an (unused) radius field. -/
structure LeafletIndividualParams where
  heads : String
  methyls : String
  radius : F
deriving DecidableEq

/-- Embeds `LeafletIndividualParams::sanity_check` (src/main.rs). -/
def LeafletIndividualParams.sanity_check (p : LeafletIndividualParams) : Bool :=
  !(p.heads = "") && !(p.methyls = "")

/-- Embeds `LeafletLocalParams::sanity_check` (src/main.rs, lines 124-128): unlike the
module version, the radius is not checked. -/
def localSanityCheck (p : Gui.LeafletLocalParams) : Bool :=
  !(p.membrane = "") && !(p.heads = "")

/-- Embeds `LeafletClassificationParams` (src/main.rs, lines 182-192). -/
structure LeafletClassificationParams where
  global_params : Gui.LeafletGlobalParams
  local_params : Gui.LeafletLocalParams
  individual_params : LeafletIndividualParams
  clustering_params : Gui.LeafletClusteringParams
  from_file_params : Gui.LeafletFromFileParams
  from_ndx_params : Gui.LeafletFromNdxParams
  frequency : Gorder.Frequency
  membrane_normal : Option MembraneNormal
deriving DecidableEq

/-- Embeds `GuiAnalysis` (src/main.rs, lines 284-298): the aggregate of the earlier
revision; it has no geometry group, no frame selection, no error estimation
and no extra options. -/
structure GuiAnalysis where
  structure_file : String
  trajectory : List String
  ndx : String
  bonds : String
  analysis_type : Gui.AnalysisType
  analysis_type_params : Gui.AnalysisTypeParams
  output : Gui.OutputFiles
  leaflet_classification_method : Gui.LeafletClassification
  leaflet_classification_params : LeafletClassificationParams
  membrane_normal : MembraneNormal
  dynamic_normal_params : Gui.DynamicNormalParams
  ordermaps_params : Gui.OrderMapsParams
deriving DecidableEq

/-- Embeds `GuiAnalysis::check_leaflets_sanity` (src/main.rs, lines 1388-1426). -/
def GuiAnalysis.check_leaflets_sanity (g : GuiAnalysis) : Bool :=
  (match g.leaflet_classification_method with
    | .none => true
    | .global => g.leaflet_classification_params.global_params.sanity_check
    | .local_ => localSanityCheck g.leaflet_classification_params.local_params
    | .individual => g.leaflet_classification_params.individual_params.sanity_check
    | .clustering => g.leaflet_classification_params.clustering_params.sanity_check
    | .fromFile => g.leaflet_classification_params.from_file_params.sanity_check
    | .fromNdx => g.leaflet_classification_params.from_ndx_params.sanity_check)
  && (match g.leaflet_classification_method with
    | .global | .local_ | .individual =>
        !(g.membrane_normal = MembraneNormal.dynamic)
          || g.leaflet_classification_params.membrane_normal.isSome
    | _ => true)

/-- Embeds `GuiAnalysis::check_membrane_normal_sanity` (src/main.rs, lines 1428-1434):
only the heads selection is required for the dynamic normal. -/
def GuiAnalysis.check_membrane_normal_sanity (g : GuiAnalysis) : Bool :=
  match g.membrane_normal with
  | .dynamic => !(g.dynamic_normal_params.heads = "")
  | _ => true

/-- Embeds `GuiAnalysis::check_analysis_params_sanity` (src/main.rs, lines 1436-1449):
unlike the module version, the united-atom selections are required. -/
def GuiAnalysis.check_analysis_params_sanity (g : GuiAnalysis) : Bool :=
  match g.analysis_type with
  | .aaorder =>
      !(g.analysis_type_params.aa_params.heavy_atoms = "")
        && !(g.analysis_type_params.aa_params.hydrogens = "")
  | .cgorder => !(g.analysis_type_params.cg_params.beads = "")
  | .uaorder =>
      !(g.analysis_type_params.ua_params.saturated = "")
        && !(g.analysis_type_params.ua_params.unsaturated = "")

/-- Embeds `GuiAnalysis::check_ordermaps_sanity` (src/main.rs, lines 1451-1454):
unlike the module version, the bin sizes are not checked. -/
def GuiAnalysis.check_ordermaps_sanity (g : GuiAnalysis) : Bool :=
  !g.ordermaps_params.calculate_maps
    || (!(g.ordermaps_params.output_directory = "")
        && (g.ordermaps_params.plane.isSome
            || !(g.membrane_normal = MembraneNormal.dynamic)))

/-- Embeds `GuiAnalysis::check_sanity` (src/main.rs, lines 1377-1386): the aggregate
readiness check gating the run button. -/
def GuiAnalysis.check_sanity (g : GuiAnalysis) : Bool :=
  g.check_leaflets_sanity
    && g.check_analysis_params_sanity
    && !(g.structure_file = "")
    && !(g.trajectory.any (fun file => file = ""))
    && !(g.output.output_yaml = "")
    && g.check_membrane_normal_sanity
    && g.check_ordermaps_sanity

end Main

/-- Does the document supply normals as a dense per-frame map? -/
def Gorder.Analysis.normalsFromMap (a : Gorder.Analysis) : Bool :=
  a.membrane_normal.isFromMap

/-- Does the document supply leaflet assignment as a dense per-frame map? -/
def Gorder.Analysis.leafletsFromMap (a : Gorder.Analysis) : Bool :=
  match a.leaflets with
  | some l => l.isFromMap
  | none => false

/-- C10: `check_geometry_sanity` accepts the none shape unconditionally and the
cuboid shape irrespective of its bounds, requires a strictly positive radius
for the cylinder and sphere shapes, and for every non-none shape with a
selection-type reference additionally requires a non-empty atom-selection
string, while point and box-center references need no further input. -/
theorem c10_geometry_sanity_characterization (g : Gui.GuiAnalysis) :
    g.check_geometry_sanity = true ↔
      (match g.geom_selection with
        | .none => True
        | .cuboid =>
            g.geom_selection_params.reference_type = Gui.GeomReferenceType.selection →
              g.geom_selection_params.ref_selection ≠ ""
        | .cylinder =>
            F.lt 0 g.geom_selection_params.cylinder.radius = true ∧
              (g.geom_selection_params.reference_type = Gui.GeomReferenceType.selection →
                g.geom_selection_params.ref_selection ≠ "")
        | .sphere =>
            F.lt 0 g.geom_selection_params.sphere.radius = true ∧
              (g.geom_selection_params.reference_type = Gui.GeomReferenceType.selection →
                g.geom_selection_params.ref_selection ≠ "")) := by
  cases hsel : g.geom_selection <;>
    simp [Gui.GuiAnalysis.check_geometry_sanity, hsel, Gui.CylinderParams.sanity_check,
      Gui.SphereParams.sanity_check, imp_iff_not_or, or_comm]

/-- C9 counterexample: the from-ndx sanity check accepts an empty NDX path
list (the `!ndx.iter().any(..)` conjunct is vacuously true), contradicting the
claim that the predicate holds only when the list has one or more entries. -/
theorem c9_counterexample :
    Gui.LeafletFromNdxParams.sanity_check
        { heads := "name P", ndx := [], upper_leaflet := "Upper", lower_leaflet := "Lower" }
      = true
    ∧ ({ heads := "name P", ndx := [], upper_leaflet := "Upper", lower_leaflet := "Lower" }
        : Gui.LeafletFromNdxParams).ndx = [] := by
  exact ⟨rfl, rfl⟩

/-- C9 (amended): the from-ndx validity predicate holds iff the heads
selection, the upper-leaflet group name and the lower-leaflet group name are
non-empty and every entry of the NDX path list is non-empty; an empty NDX list
itself is not rejected (the predicate is vacuously satisfied on it, the GUI
relying on its invariant that the list always holds at least one entry). -/
theorem c9_from_ndx_sanity_amended (p : Gui.LeafletFromNdxParams) :
    p.sanity_check = true ↔
      (p.heads ≠ "" ∧ (∀ file ∈ p.ndx, file ≠ "") ∧
        p.upper_leaflet ≠ "" ∧ p.lower_leaflet ≠ "") := by
  simp [Gui.LeafletFromNdxParams.sanity_check, List.any_eq_true, and_assoc]

/-- C5 counterexample: importing the frequency `Once` does not put the
selector into the "every frame" state with N = 1; it selects the dedicated
"once" radio (with the N scratch value 0). -/
theorem c5_counterexample :
    Gui.freqSelector Gorder.Frequency.once = (Gui.RawFrequency.once, 0)
    ∧ Gui.freqSelector Gorder.Frequency.once ≠ (Gui.RawFrequency.every, 1) := by
  exact ⟨rfl, by decide⟩

/-- C5 (amended): import stores the classification frequency unchanged, and the
frequency selector then shows `Once` as the "once" state, `Every(1)` as the
"every frame" state with N = 1, and `Every(n)` with n > 1 as the "every Nth
frame" state carrying that N. -/
theorem c5_frequency_selector_amended (lc : Gorder.LeafletClassification)
    (h : lc.isFromMap = false) :
    ∃ p, Gui.LeafletClassificationParams.tryFrom (some lc) = .ok p
      ∧ p.frequency = lc.frequency
      ∧ (lc.frequency = .once →
          Gui.freqSelector p.frequency = (Gui.RawFrequency.once, 0))
      ∧ (lc.frequency = .every 1 →
          Gui.freqSelector p.frequency = (Gui.RawFrequency.every, 1))
      ∧ (∀ n : ℕ+, 1 < n → lc.frequency = .every n →
          Gui.freqSelector p.frequency = (Gui.RawFrequency.everyN, (n : ℕ))) := by
  have hsel : ∀ f : Gorder.Frequency,
      (f = .once → Gui.freqSelector f = (Gui.RawFrequency.once, 0))
      ∧ (f = .every 1 → Gui.freqSelector f = (Gui.RawFrequency.every, 1))
      ∧ (∀ n : ℕ+, 1 < n → f = .every n →
          Gui.freqSelector f = (Gui.RawFrequency.everyN, (n : ℕ))) := by
    intro f
    refine ⟨?_, ?_, ?_⟩
    · rintro rfl; rfl
    · rintro rfl; rfl
    · rintro n hn rfl
      have hne : n ≠ 1 := ne_of_gt hn
      simp [Gui.freqSelector, hne]
  cases lc with
  | fromMap u => simp [Gorder.LeafletClassification.isFromMap] at h
  | global p =>
      exact ⟨_, rfl, rfl, (hsel p.frequency).1, (hsel p.frequency).2.1, (hsel p.frequency).2.2⟩
  | local_ p =>
      exact ⟨_, rfl, rfl, (hsel p.frequency).1, (hsel p.frequency).2.1, (hsel p.frequency).2.2⟩
  | individual p =>
      exact ⟨_, rfl, rfl, (hsel p.frequency).1, (hsel p.frequency).2.1, (hsel p.frequency).2.2⟩
  | clustering p =>
      exact ⟨_, rfl, rfl, (hsel p.frequency).1, (hsel p.frequency).2.1, (hsel p.frequency).2.2⟩
  | fromFile p =>
      exact ⟨_, rfl, rfl, (hsel p.frequency).1, (hsel p.frequency).2.1, (hsel p.frequency).2.2⟩
  | fromNdx p =>
      exact ⟨_, rfl, rfl, (hsel p.frequency).1, (hsel p.frequency).2.1, (hsel p.frequency).2.2⟩

/-- C5 witness: the amended statement applied to a concrete classification
imported with frequency `Every(5)`. -/
theorem c5_frequency_selector_amended_witness :
    ∃ p, Gui.LeafletClassificationParams.tryFrom
        (some ((Gorder.LeafletClassification.mkGlobal "@membrane" "name P").with_frequency
          (.every 5))) = .ok p
      ∧ p.frequency = ((Gorder.LeafletClassification.mkGlobal "@membrane"
          "name P").with_frequency (.every 5)).frequency
      ∧ (((Gorder.LeafletClassification.mkGlobal "@membrane" "name P").with_frequency
          (.every 5)).frequency = .once →
          Gui.freqSelector p.frequency = (Gui.RawFrequency.once, 0))
      ∧ (((Gorder.LeafletClassification.mkGlobal "@membrane" "name P").with_frequency
          (.every 5)).frequency = .every 1 →
          Gui.freqSelector p.frequency = (Gui.RawFrequency.every, 1))
      ∧ (∀ n : ℕ+, 1 < n →
          ((Gorder.LeafletClassification.mkGlobal "@membrane" "name P").with_frequency
            (.every 5)).frequency = .every n →
          Gui.freqSelector p.frequency = (Gui.RawFrequency.everyN, (n : ℕ))) :=
  c5_frequency_selector_amended
    ((Gorder.LeafletClassification.mkGlobal "@membrane" "name P").with_frequency (.every 5)) rfl

/-- The GUI state exhibiting the C3 divergence: ordermaps on, output directory
provided, default bin sizes, from-file membrane normal, no plane chosen. -/
def c3State : Gui.GuiAnalysis :=
  { Gui.GuiAnalysis.default with
    membrane_normal := .fromFile
    from_file_normals := "normals.yaml"
    ordermaps_params := { Gui.OrderMapsParams.default with
      calculate_maps := true, output_directory := "ordermaps" } }

/-- C3: with ordermaps enabled, the from-file membrane normal and no explicit
plane, the UI derives the `Unknown` plane (and shows the warning marker), yet
`check_ordermaps_sanity` returns `true`: the predicate exempts only the
dynamic normal from the plane requirement, not the from-file normal. -/
theorem c3_fromfile_no_plane_passes :
    Gui.GuiAnalysis.check_ordermaps_sanity c3State = true
    ∧ c3State.ordermaps_params.plane = none
    ∧ c3State.ordermaps_params.calculate_maps = true
    ∧ Gui.GuiAnalysis.rawPlane c3State = Gui.Plane.unknown := by
  refine ⟨by decide, rfl, rfl, rfl⟩

/-- C6: with the dynamic global membrane normal, the normal-dependent leaflet
methods require an explicit override: for the global method with its membrane
and heads selections filled, `check_leaflets_sanity` is false without an
override and true with the Z override; for the local and individual methods
the absence of an override likewise forces the predicate to false. -/
theorem c6_leaflet_override_coupling (g : Gui.GuiAnalysis)
    (hdyn : g.membrane_normal = Gui.MembraneNormal.dynamic) :
    (g.leaflet_classification_method = Gui.LeafletClassification.global →
      g.leaflet_classification_params.global_params.membrane ≠ "" →
      g.leaflet_classification_params.global_params.heads ≠ "" →
      ((g.leaflet_classification_params.membrane_normal = none →
          g.check_leaflets_sanity = false)
        ∧ (g.leaflet_classification_params.membrane_normal = some Gui.MembraneNormal.z →
          g.check_leaflets_sanity = true)))
    ∧ ((g.leaflet_classification_method = Gui.LeafletClassification.local_ ∨
        g.leaflet_classification_method = Gui.LeafletClassification.individual) →
        g.leaflet_classification_params.membrane_normal = none →
        g.check_leaflets_sanity = false) := by
  constructor
  · intro hm hmem hhead
    constructor
    · intro hnone
      simp [Gui.GuiAnalysis.check_leaflets_sanity, hm, hdyn, hnone]
    · intro hsome
      simp [Gui.GuiAnalysis.check_leaflets_sanity, hm, hdyn, hsome,
        Gui.LeafletGlobalParams.sanity_check, hmem, hhead]
  · rintro (hm | hm) hnone <;>
      simp [Gui.GuiAnalysis.check_leaflets_sanity, hm, hdyn, hnone]

/-- Dynamic global normal, global leaflet method with filled selections and no
leaflet-normal override. -/
def c6StateNoOverride : Gui.GuiAnalysis :=
  { Gui.GuiAnalysis.default with
    membrane_normal := .dynamic
    leaflet_classification_method := .global
    leaflet_classification_params := { Gui.LeafletClassificationParams.default with
      global_params := { membrane := "@membrane", heads := "name P" } } }

/-- The same state with the explicit Z override set. -/
def c6StateOverride : Gui.GuiAnalysis :=
  { c6StateNoOverride with
    leaflet_classification_params := { c6StateNoOverride.leaflet_classification_params with
      membrane_normal := some Gui.MembraneNormal.z } }

/-- C6 witness: the coupling evaluated on the two concrete states. -/
theorem c6_leaflet_override_coupling_witness :
    Gui.GuiAnalysis.check_leaflets_sanity c6StateNoOverride = false
    ∧ Gui.GuiAnalysis.check_leaflets_sanity c6StateOverride = true := by
  constructor
  · exact ((c6_leaflet_override_coupling c6StateNoOverride rfl).1 rfl
      (by decide) (by decide)).1 rfl
  · exact ((c6_leaflet_override_coupling c6StateOverride rfl).1 rfl
      (by decide) (by decide)).2 rfl

/-- A runnable-looking state of the src/main.rs aggregate whose trajectory
list is empty. -/
def c4State : Main.GuiAnalysis :=
  { structure_file := "system.gro"
    trajectory := []
    ndx := ""
    bonds := ""
    analysis_type := .aaorder
    analysis_type_params := { Gui.AnalysisTypeParams.default with
      aa_params := { heavy_atoms := "element name carbon",
                     hydrogens := "element name hydrogen" } }
    output := { Gui.OutputFiles.default with output_yaml := "order.yaml" }
    leaflet_classification_method := .none
    leaflet_classification_params :=
      { global_params := Gui.LeafletGlobalParams.default
        local_params := Gui.LeafletLocalParams.default
        individual_params := { heads := "", methyls := "", radius := 0 }
        clustering_params := Gui.LeafletClusteringParams.default
        from_file_params := Gui.LeafletFromFileParams.default
        from_ndx_params := Gui.LeafletFromNdxParams.default
        frequency := .every 1
        membrane_normal := none }
    membrane_normal := .z
    dynamic_normal_params := Gui.DynamicNormalParams.default
    ordermaps_params := Gui.OrderMapsParams.default }

/-- C4 counterexample: `check_sanity` returns true although the trajectory
list is empty, contradicting the claimed requirement that the (non-empty)
trajectory list be present; the geometry predicate named by the claim is not
consulted either — the src/main.rs aggregate has no geometry group. -/
theorem c4_counterexample :
    Main.GuiAnalysis.check_sanity c4State = true ∧ c4State.trajectory = [] := by
  exact ⟨by decide, rfl⟩

/-- C4 (amended): `check_sanity()` of the src/main.rs aggregate returns true
iff the leaflet, analysis-type, membrane-normal and ordermaps predicates hold,
the structure path and the output YAML path are non-empty, and every entry of
the (possibly empty) trajectory list is non-empty.  The geometry predicate is
not part of this aggregate and an empty trajectory list is not rejected. -/
theorem c4_check_sanity_amended (g : Main.GuiAnalysis) :
    g.check_sanity = true ↔
      (g.check_leaflets_sanity = true ∧ g.check_analysis_params_sanity = true
        ∧ g.check_membrane_normal_sanity = true ∧ g.check_ordermaps_sanity = true
        ∧ g.structure_file ≠ "" ∧ (∀ file ∈ g.trajectory, file ≠ "")
        ∧ g.output.output_yaml ≠ "") := by
  simp only [Main.GuiAnalysis.check_sanity, Bool.and_eq_true, Bool.not_eq_true',
    List.any_eq_false, decide_eq_false_iff_not, decide_eq_true_eq, ne_eq]
  tauto

/-- A document supplying both membrane normals and leaflet assignment as dense
per-frame maps. -/
def c2Doc : Gorder.Analysis :=
  { structure_file := "system.gro"
    trajectory := ["md.xtc"]
    index := none
    bonds := none
    output_yaml := "order.yaml"
    output_tab := none
    output_csv := none
    output_xvg := none
    analysis_type := .aaorder "element name carbon" "element name hydrogen"
    membrane_normal := .fromMap ()
    leaflets := some (.fromMap ())
    estimate_error := none
    begin := 0
    stop := .posInf
    step := 1
    geometry := none
    map := none
    min_samples := 1
    n_threads := 1
    handle_pbc := true
    overwrite := false
    silent := false }

/-- C2 counterexample: on a document whose normals and leaflets are both dense
per-frame maps, import returns `FromMapNormals` (normals are converted first),
so `FromMapLeaflets` is not returned even though the leaflet assignment is
supplied as a dense map — against the claimed "exactly when". -/
theorem c2_counterexample :
    Gui.GuiAnalysis.tryFrom c2Doc = .error Gui.ConversionError.fromMapNormals
    ∧ c2Doc.leafletsFromMap = true
    ∧ ¬ (Gui.GuiAnalysis.tryFrom c2Doc = .error Gui.ConversionError.fromMapLeaflets) := by
  refine ⟨rfl, rfl, ?_⟩
  intro h
  have h0 : Gui.GuiAnalysis.tryFrom c2Doc
      = .error Gui.ConversionError.fromMapNormals := rfl
  rw [h0] at h
  exact absurd (Except.error.inj h) (by decide)

/-- C2 (amended): import fails with `FromMapNormals` exactly when the document
supplies normals as a dense per-frame map, fails with `FromMapLeaflets`
exactly when the leaflet assignment is a dense per-frame map and the normals
are not (normals are checked first), and succeeds exactly when neither is a
dense map; a failure aborts the conversion, so no partially-populated
aggregate is produced. -/
theorem c2_import_errors_amended (a : Gorder.Analysis) :
    (Gui.GuiAnalysis.tryFrom a = .error Gui.ConversionError.fromMapNormals ↔
      a.normalsFromMap = true)
    ∧ (Gui.GuiAnalysis.tryFrom a = .error Gui.ConversionError.fromMapLeaflets ↔
      (a.leafletsFromMap = true ∧ a.normalsFromMap = false))
    ∧ ((∃ g, Gui.GuiAnalysis.tryFrom a = .ok g) ↔
      (a.normalsFromMap = false ∧ a.leafletsFromMap = false)) := by
  cases hn : a.membrane_normal <;> cases hl : a.leaflets <;>
    (rename_i l
     cases l <;>
       simp [Gui.GuiAnalysis.tryFrom, Gui.MembraneNormal.tryFrom,
         Gui.DynamicNormalParams.tryFrom, Gui.LeafletClassification.tryFrom,
         Gui.LeafletClassificationParams.tryFrom, Gorder.Analysis.normalsFromMap,
         Gorder.Analysis.leafletsFromMap, Gorder.MembraneNormal.isFromMap,
         Gorder.LeafletClassification.isFromMap, Bind.bind, Except.bind, hn, hl])

/-- The membrane-normal export step either succeeds or returns an
`InvalidMembraneNormal` conversion error; it never panics. -/
theorem toGorderMembraneNormalShape (g : Gui.GuiAnalysis) :
    (∃ mn, g.toGorderMembraneNormal = .ok mn)
    ∨ (∃ m, g.toGorderMembraneNormal
        = .error (.conv (.invalidMembraneNormal m))) := by
  cases hn : g.membrane_normal <;>
    simp only [Gui.GuiAnalysis.toGorderMembraneNormal, hn]
  case x => exact .inl ⟨_, rfl⟩
  case y => exact .inl ⟨_, rfl⟩
  case z => exact .inl ⟨_, rfl⟩
  case fromFile => exact .inl ⟨_, rfl⟩
  case dynamic =>
    cases hd : Gorder.DynamicNormal.new g.dynamic_normal_params.heads
        g.dynamic_normal_params.radius with
    | ok d => exact .inl ⟨_, rfl⟩
    | error e => exact .inr ⟨e, rfl⟩


/-- The error-estimation export step either succeeds or returns an
`InvalidEstimateError` conversion error; it never panics. -/
theorem estimateErrorShape (p : Gui.EstimateErrorParams) :
    (∃ v, p.tryInto = .ok v)
    ∨ (∃ m, p.tryInto = .error (.conv (.invalidEstimateError m))) := by
  by_cases hc : p.estimate_error = true
  · simp only [Gui.EstimateErrorParams.tryInto, hc, Bool.not_true, Bool.false_eq_true,
      if_false]
    cases hn : Gorder.EstimateError.new (some p.n_blocks)
        (if p.output_convergence = "" then none else some p.output_convergence) with
    | ok v => exact .inl ⟨_, rfl⟩
    | error e => exact .inr ⟨e, rfl⟩
  · replace hc : p.estimate_error = false := by simpa using hc
    have h : p.tryInto = .ok Option.none := by
      simp [Gui.EstimateErrorParams.tryInto, hc]
    exact .inl ⟨_, h⟩

/-- The leaflet export step always succeeds. -/
theorem toGorderLeafletsShape (g : Gui.GuiAnalysis) :
    ∃ v, g.toGorderLeaflets = .ok v := by
  cases hm : g.leaflet_classification_method <;>
    (simp only [Gui.GuiAnalysis.toGorderLeaflets, hm]; exact ⟨_, rfl⟩)

/-- The geometry export step either succeeds or returns an
`InvalidGeometryParams` conversion error; it never panics. -/
theorem toGorderGeometryShape (g : Gui.GuiAnalysis) :
    (∃ v, g.toGorderGeometry = .ok v)
    ∨ (∃ m, g.toGorderGeometry = .error (.conv (.invalidGeometryParams m))) := by
  cases hs : g.geom_selection <;>
    simp only [Gui.GuiAnalysis.toGorderGeometry, hs]
  case none => exact .inl ⟨_, rfl⟩
  case cuboid =>
    cases hg : Gorder.Geometry.mkCuboid g.geom_selection_params.toReference
        (g.geom_selection_params.cuboid.minx, g.geom_selection_params.cuboid.maxx)
        (g.geom_selection_params.cuboid.miny, g.geom_selection_params.cuboid.maxy)
        (g.geom_selection_params.cuboid.minz, g.geom_selection_params.cuboid.maxz) with
    | ok v => exact .inl ⟨_, rfl⟩
    | error e => exact .inr ⟨e, rfl⟩
  case cylinder =>
    cases hg : Gorder.Geometry.mkCylinder g.geom_selection_params.toReference
        g.geom_selection_params.cylinder.radius
        (g.geom_selection_params.cylinder.start, g.geom_selection_params.cylinder.stop)
        g.geom_selection_params.cylinder.orientation with
    | ok v => exact .inl ⟨_, rfl⟩
    | error e => exact .inr ⟨e, rfl⟩
  case sphere =>
    cases hg : Gorder.Geometry.mkSphere g.geom_selection_params.toReference
        g.geom_selection_params.sphere.radius with
    | ok v => exact .inl ⟨_, rfl⟩
    | error e => exact .inr ⟨e, rfl⟩

/-- The grid span a dimension selector denotes (auto, or the manual span). -/
def spanOfDim (d : Gui.OrderMapDimension) (m : Gui.ManualDimensions) : Gorder.GridSpan :=
  match d with
  | .auto => .auto
  | .manual => .manual m.start m.stop

/-- A well-ordered (or automatic) dimension converts without panicking. -/
theorem dimSpan_ok (d : Gui.OrderMapDimension) (m : Gui.ManualDimensions)
    (h : d = .manual → F.le m.start m.stop = true) :
    Gui.dimSpan d m = .ok (spanOfDim d m) := by
  cases hd : d with
  | auto => rfl
  | manual =>
      have hle := h hd
      simp [Gui.dimSpan, Gorder.GridSpan.mkManual, spanOfDim, hle]

/-- The ordermap export step with well-ordered manual dimensions either
succeeds or returns an `InvalidOrderMapParams` conversion error; the
`.unwrap()` panic is only reachable through an inverted manual span. -/
theorem ordermapsShape (p : Gui.OrderMapsParams)
    (hx : p.dimensions.1 = .manual → F.le p.x_manual.start p.x_manual.stop = true)
    (hy : p.dimensions.2 = .manual → F.le p.y_manual.start p.y_manual.stop = true) :
    (∃ v, p.tryInto = .ok v)
    ∨ (∃ m, p.tryInto = .error (.conv (.invalidOrderMapParams m))) := by
  by_cases hc : p.calculate_maps = true
  swap
  · replace hc : p.calculate_maps = false := by simpa using hc
    have h : p.tryInto = .ok Option.none := by simp [Gui.OrderMapsParams.tryInto, hc]
    exact .inl ⟨_, h⟩
  have hdx := dimSpan_ok p.dimensions.1 p.x_manual hx
  have hdy := dimSpan_ok p.dimensions.2 p.y_manual hy
  cases hpl : Gui.planeTry p.plane with
  | error e =>
      have he : ∃ m, e = Gui.ExportErr.conv (.invalidOrderMapParams m) := by
        cases hp : p.plane with
        | none => rw [hp] at hpl; cases hpl
        | some pl =>
            cases pl <;> rw [hp] at hpl <;> cases hpl
            exact ⟨_, rfl⟩
      obtain ⟨m, rfl⟩ := he
      refine .inr ⟨m, ?_⟩
      simp [Gui.OrderMapsParams.tryInto, hc, hdx, hdy, hpl, Bind.bind, Except.bind]
  | ok pl =>
      cases hb : Gorder.OrderMap.build p.output_directory pl p.bin_size
          (spanOfDim p.dimensions.1 p.x_manual, spanOfDim p.dimensions.2 p.y_manual)
          p.min_samples with
      | ok v =>
          refine .inl ⟨some v, ?_⟩
          simp [Gui.OrderMapsParams.tryInto, hc, hdx, hdy, hpl, hb, Bind.bind, Except.bind]
      | error e =>
          refine .inr ⟨e, ?_⟩
          simp [Gui.OrderMapsParams.tryInto, hc, hdx, hdy, hpl, hb, Bind.bind, Except.bind]

/-- A GUI state whose first ordermap dimension is manual with an inverted span
(start 2 nm, end 1 nm), everything else default except ordermaps enabled. -/
def c7State : Gui.GuiAnalysis :=
  { Gui.GuiAnalysis.default with
    ordermaps_params := { Gui.OrderMapsParams.default with
      calculate_maps := true
      output_directory := "ordermaps"
      dimensions := (.manual, .auto)
      x_manual := { start := 2, stop := 1 } } }

/-- C7 counterexample: export of a state with a malformed manual ordermap
dimension panics (`GridSpan::manual(..).unwrap()` in src/ordermaps.rs) instead
of returning a conversion error. -/
theorem c7_counterexample :
    Gui.GuiAnalysis.tryInto c7State
      = .error (.panicked "grid span start is greater than grid span end") := by
  rfl

/-- C7 (amended): export never panics except through the
`GridSpan::manual(..).unwrap()` calls on a malformed manual ordermap
dimension; whenever the manual ordermap spans are well-ordered, every
builder-level rejection (geometry bounds, radii, bin sizes, plane, error
estimation) is returned as a conversion error carrying the underlying
message, and nothing is silently clamped. -/
theorem c7_export_no_panic_amended (g : Gui.GuiAnalysis)
    (hx : g.ordermaps_params.dimensions.1 = .manual →
      F.le g.ordermaps_params.x_manual.start g.ordermaps_params.x_manual.stop = true)
    (hy : g.ordermaps_params.dimensions.2 = .manual →
      F.le g.ordermaps_params.y_manual.start g.ordermaps_params.y_manual.stop = true) :
    ∀ msg, g.tryInto ≠ .error (.panicked msg) := by
  intro msg h
  rcases toGorderMembraneNormalShape g with ⟨mn, hmn⟩ | ⟨m, hmn⟩
  swap
  · simp [Gui.GuiAnalysis.tryInto, hmn, Bind.bind, Except.bind] at h
  rcases estimateErrorShape g.estimate_error_params with ⟨ee, hee⟩ | ⟨m, hee⟩
  swap
  · simp [Gui.GuiAnalysis.tryInto, hmn, hee, Bind.bind, Except.bind] at h
  obtain ⟨lf, hlf⟩ := toGorderLeafletsShape g
  rcases toGorderGeometryShape g with ⟨geo, hgeo⟩ | ⟨m, hgeo⟩
  swap
  · simp [Gui.GuiAnalysis.tryInto, hmn, hee, hlf, hgeo, Bind.bind, Except.bind] at h
  rcases ordermapsShape g.ordermaps_params hx hy with ⟨om, hom⟩ | ⟨m, hom⟩ <;>
    simp [Gui.GuiAnalysis.tryInto, hmn, hee, hlf, hgeo, hom, Bind.bind, Except.bind] at h

/-- C7 witness: the amended statement applied to the default state (ordermaps
disabled, both dimensions automatic) and a concrete panic message. -/
theorem c7_export_no_panic_amended_witness :
    Gui.GuiAnalysis.tryInto Gui.GuiAnalysis.default
      ≠ .error (.panicked "grid span start is greater than grid span end") :=
  c7_export_no_panic_amended Gui.GuiAnalysis.default
    (fun h => by cases h) (fun h => by cases h)
    "grid span start is greater than grid span end"

/-- Zero is not strictly below zero on the `f32` model. -/
theorem fltZeroZero : F.lt 0 0 = false := rfl

/-- C8: exporting a state whose active geometry is a cylinder or sphere with
radius exactly zero yields `InvalidGeometryParams`; a dynamic membrane normal
with radius exactly zero yields `InvalidMembraneNormal`; enabled ordermaps
with a zero bin size yield `InvalidOrderMapParams` — never a document carrying
the zero value.  (Each scenario assumes the pipeline stages preceding the
failing one succeed; manual ordermap spans must be well-ordered so the zero
bin size is reached rather than the span `.unwrap()`.) -/
theorem c8_zero_values_rejected (g : Gui.GuiAnalysis) :
    (((g.geom_selection = Gui.GeomSelection.cylinder ∧
        g.geom_selection_params.cylinder.radius = 0) ∨
      (g.geom_selection = Gui.GeomSelection.sphere ∧
        g.geom_selection_params.sphere.radius = 0)) →
      (∃ mn, g.toGorderMembraneNormal = .ok mn) →
      (∃ ee, g.estimate_error_params.tryInto = .ok ee) →
      ∃ m, g.tryInto = .error (.conv (.invalidGeometryParams m)))
    ∧ (g.membrane_normal = Gui.MembraneNormal.dynamic →
        g.dynamic_normal_params.radius = 0 →
        ∃ m, g.tryInto = .error (.conv (.invalidMembraneNormal m)))
    ∧ (g.ordermaps_params.calculate_maps = true →
        (g.ordermaps_params.bin_size.1 = 0 ∨ g.ordermaps_params.bin_size.2 = 0) →
        (∃ mn, g.toGorderMembraneNormal = .ok mn) →
        (∃ ee, g.estimate_error_params.tryInto = .ok ee) →
        (∃ geo, g.toGorderGeometry = .ok geo) →
        (g.ordermaps_params.dimensions.1 = .manual →
          F.le g.ordermaps_params.x_manual.start g.ordermaps_params.x_manual.stop = true) →
        (g.ordermaps_params.dimensions.2 = .manual →
          F.le g.ordermaps_params.y_manual.start g.ordermaps_params.y_manual.stop = true) →
        ∃ m, g.tryInto = .error (.conv (.invalidOrderMapParams m))) := by
  refine ⟨?_, ?_, ?_⟩
  · rintro (⟨hsel, hrad⟩ | ⟨hsel, hrad⟩) ⟨mn, hmn⟩ ⟨ee, hee⟩ <;>
      obtain ⟨lf, hlf⟩ := toGorderLeafletsShape g
    · have hgeo : g.toGorderGeometry
          = .error (.conv (.invalidGeometryParams "radius of the cylinder must be positive")) := by
        simp [Gui.GuiAnalysis.toGorderGeometry, hsel, Gorder.Geometry.mkCylinder, hrad,
          fltZeroZero]
      exact ⟨"radius of the cylinder must be positive",
        by simp [Gui.GuiAnalysis.tryInto, hmn, hee, hlf, hgeo, Bind.bind, Except.bind]⟩
    · have hgeo : g.toGorderGeometry
          = .error (.conv (.invalidGeometryParams "radius of the sphere must be positive")) := by
        simp [Gui.GuiAnalysis.toGorderGeometry, hsel, Gorder.Geometry.mkSphere, hrad,
          fltZeroZero]
      exact ⟨"radius of the sphere must be positive",
        by simp [Gui.GuiAnalysis.tryInto, hmn, hee, hlf, hgeo, Bind.bind, Except.bind]⟩
  · intro hdyn hrad
    have hmn : ∃ m, g.toGorderMembraneNormal
        = .error (.conv (.invalidMembraneNormal m)) := by
      by_cases hh : g.dynamic_normal_params.heads = ""
      · exact ⟨"no heads selection provided for the dynamic membrane normal",
          by simp [Gui.GuiAnalysis.toGorderMembraneNormal, hdyn,
            Gorder.DynamicNormal.new, hh]⟩
      · exact ⟨"radius of the dynamic membrane normal must be positive",
          by simp [Gui.GuiAnalysis.toGorderMembraneNormal, hdyn,
            Gorder.DynamicNormal.new, hh, hrad, fltZeroZero]⟩
    obtain ⟨m, hmn⟩ := hmn
    exact ⟨m, by simp [Gui.GuiAnalysis.tryInto, hmn, Bind.bind, Except.bind]⟩
  · intro hc hbin ⟨mn, hmn⟩ ⟨ee, hee⟩ ⟨geo, hgeo⟩ hx hy
    obtain ⟨lf, hlf⟩ := toGorderLeafletsShape g
    have hdx := dimSpan_ok g.ordermaps_params.dimensions.1 g.ordermaps_params.x_manual hx
    have hdy := dimSpan_ok g.ordermaps_params.dimensions.2 g.ordermaps_params.y_manual hy
    have hom : ∃ m, g.ordermaps_params.tryInto
        = .error (.conv (.invalidOrderMapParams m)) := by
      cases hpl : Gui.planeTry g.ordermaps_params.plane with
      | error e =>
          have he : ∃ m, e = Gui.ExportErr.conv (.invalidOrderMapParams m) := by
            cases hp : g.ordermaps_params.plane with
            | none => rw [hp] at hpl; cases hpl
            | some pl =>
                cases pl <;> rw [hp] at hpl <;> cases hpl
                exact ⟨_, rfl⟩
          obtain ⟨m, rfl⟩ := he
          exact ⟨m, by simp [Gui.OrderMapsParams.tryInto, hc, hdx, hdy, hpl, Bind.bind,
            Except.bind]⟩
      | ok pl =>
          have hb : Gorder.OrderMap.build g.ordermaps_params.output_directory pl
              g.ordermaps_params.bin_size
              (spanOfDim g.ordermaps_params.dimensions.1 g.ordermaps_params.x_manual,
               spanOfDim g.ordermaps_params.dimensions.2 g.ordermaps_params.y_manual)
              g.ordermaps_params.min_samples
              = .error "bin size of the ordermap must be positive" := by
            rcases hbin with h0 | h0 <;> simp [Gorder.OrderMap.build, h0, fltZeroZero]
          exact ⟨"bin size of the ordermap must be positive",
            by simp [Gui.OrderMapsParams.tryInto, hc, hdx, hdy, hpl, hb, Bind.bind,
              Except.bind]⟩
    obtain ⟨m, hom⟩ := hom
    exact ⟨m, by simp [Gui.GuiAnalysis.tryInto, hmn, hee, hlf, hgeo, hom, Bind.bind,
      Except.bind]⟩

/-- An otherwise-default state with a zero-radius cylinder selection. -/
def c8CylState : Gui.GuiAnalysis :=
  { Gui.GuiAnalysis.default with
    geom_selection := .cylinder
    geom_selection_params := { Gui.GeomSelectionParams.default with
      cylinder := { Gui.CylinderParams.default with radius := 0 } } }

/-- An otherwise-default state with a zero-radius dynamic membrane normal. -/
def c8DynState : Gui.GuiAnalysis :=
  { Gui.GuiAnalysis.default with
    membrane_normal := .dynamic
    dynamic_normal_params := { heads := "name P", radius := 0 } }

/-- An otherwise-default state with ordermaps enabled and a zero bin size. -/
def c8BinState : Gui.GuiAnalysis :=
  { Gui.GuiAnalysis.default with
    ordermaps_params := { Gui.OrderMapsParams.default with
      calculate_maps := true
      output_directory := "ordermaps"
      bin_size := (0, .fin (Rat.mk' 1 10)) } }

/-- C8 witness: the three rejection scenarios evaluated on concrete states. -/
theorem c8_zero_values_rejected_witness :
    (∃ m, Gui.GuiAnalysis.tryInto c8CylState
      = .error (.conv (.invalidGeometryParams m)))
    ∧ (∃ m, Gui.GuiAnalysis.tryInto c8DynState
      = .error (.conv (.invalidMembraneNormal m)))
    ∧ (∃ m, Gui.GuiAnalysis.tryInto c8BinState
      = .error (.conv (.invalidOrderMapParams m))) := by
  refine ⟨?_, ?_, ?_⟩
  · exact (c8_zero_values_rejected c8CylState).1 (Or.inl ⟨rfl, rfl⟩) ⟨_, rfl⟩ ⟨_, rfl⟩
  · exact (c8_zero_values_rejected c8DynState).2.1 rfl rfl
  · exact (c8_zero_values_rejected c8BinState).2.2 rfl (Or.inl rfl) ⟨_, rfl⟩ ⟨_, rfl⟩
      ⟨_, rfl⟩ (fun h => nomatch h) (fun h => nomatch h)

/-- An optional string key is well-formed when it is absent or non-empty
(the document convention: presence signals a value, never an empty string). -/
def optStrOk : Option String → Bool
  | none => true
  | some s => !(s = "")

/-- Well-formedness of the united-atom optional selections. -/
def uaOptOk : Gorder.AnalysisType → Bool
  | .uaorder s u i => optStrOk s && optStrOk u && optStrOk i
  | _ => true

/-- Well-formedness of the error-estimation block (at least two blocks, no
empty-string convergence path). -/
def estimateOk : Option Gorder.EstimateError → Bool
  | none => true
  | some e => decide (2 ≤ e.n_blocks) && optStrOk e.output_convergence

/-- Validity of a dynamic membrane normal (heads selection and positive
radius, i.e. the values its own constructor accepts). -/
def dynNormalOk : Gorder.MembraneNormal → Bool
  | .dynamic d => !(d.heads = "") && F.lt 0 d.radius
  | _ => true

/-- Validity of a geometry (the values its own constructor accepts). -/
def geometryValid : Gorder.Geometry → Bool
  | .cuboid p => F.le p.xdim.1 p.xdim.2 && F.le p.ydim.1 p.ydim.2 && F.le p.zdim.1 p.zdim.2
  | .cylinder p => F.lt 0 p.radius && F.le p.span.1 p.span.2
  | .sphere p => F.lt 0 p.radius

/-- Validity of an optional geometry. -/
def geometryValidOpt : Option Gorder.Geometry → Bool
  | none => true
  | some geo => geometryValid geo

/-- A grid span is ordered (manual spans must not be inverted). -/
def gridSpanOrdered : Gorder.GridSpan → Bool
  | .auto => true
  | .manual s e => F.le s e

/-- Well-formedness of an ordermap block (positive bin sizes, ordered manual
spans, no empty-string output directory). -/
def ordermapOk : Option Gorder.OrderMap → Bool
  | none => true
  | some m =>
      F.lt 0 m.bin_size.1 && F.lt 0 m.bin_size.2 && gridSpanOrdered m.dim.1
        && gridSpanOrdered m.dim.2 && optStrOk m.output_directory

/-- A configuration document is well-formed when its optional string keys are
absent-or-non-empty and its numeric blocks satisfy the constraints their own
builders enforce — i.e. it is a document the engine loader would accept. -/
def Gorder.Analysis.docWellFormed (a : Gorder.Analysis) : Bool :=
  optStrOk a.index && optStrOk a.bonds && optStrOk a.output_tab && optStrOk a.output_csv
    && optStrOk a.output_xvg && uaOptOk a.analysis_type && estimateOk a.estimate_error
    && dynNormalOk a.membrane_normal && geometryValidOpt a.geometry && ordermapOk a.map

/-- The GUI membrane-normal tag the normal of a document imports to. -/
def Gui.MembraneNormal.ofGorder : Gorder.MembraneNormal → Gui.MembraneNormal
  | .static a => Gui.MembraneNormal.fromAxis a
  | .dynamic _ => .dynamic
  | .fromFile _ => .fromFile
  | .fromMap _ => .z

/-- The dynamic-normal parameter block the normal of a document imports to. -/
def Gui.DynamicNormalParams.ofGorder : Gorder.MembraneNormal → Gui.DynamicNormalParams
  | .dynamic d => { heads := d.heads, radius := d.radius }
  | _ => Gui.DynamicNormalParams.default

/-- The from-file normals path the normal of a document imports to. -/
def fromFileNormalsOf : Gorder.MembraneNormal → String
  | .fromFile x => x
  | _ => ""

/-- The leaflet method tag the classification of a document imports to. -/
def Gui.LeafletClassification.ofGorder :
    Option Gorder.LeafletClassification → Gui.LeafletClassification
  | Option.none => .none
  | some (.global _) => .global
  | some (.local_ _) => .local_
  | some (.individual _) => .individual
  | some (.clustering _) => .clustering
  | some (.fromFile _) => .fromFile
  | some (.fromNdx _) => .fromNdx
  | some (.fromMap _) => .none

/-- The leaflet parameter block the classification of a document imports to. -/
def Gui.LeafletClassificationParams.ofGorder :
    Option Gorder.LeafletClassification → Gui.LeafletClassificationParams
  | none => Gui.LeafletClassificationParams.default
  | some (.global p) =>
      { Gui.LeafletClassificationParams.default with
        global_params := { membrane := p.membrane, heads := p.heads }
        frequency := p.frequency
        membrane_normal := Gui.convert_axis_option p.membrane_normal }
  | some (.local_ p) =>
      { Gui.LeafletClassificationParams.default with
        local_params := { membrane := p.membrane, heads := p.heads, radius := p.radius }
        frequency := p.frequency
        membrane_normal := Gui.convert_axis_option p.membrane_normal }
  | some (.individual p) =>
      { Gui.LeafletClassificationParams.default with
        individual_params := { heads := p.heads, methyls := p.methyls }
        frequency := p.frequency
        membrane_normal := Gui.convert_axis_option p.membrane_normal }
  | some (.clustering p) =>
      { Gui.LeafletClassificationParams.default with
        clustering_params := { heads := p.heads }
        frequency := p.frequency }
  | some (.fromFile p) =>
      { Gui.LeafletClassificationParams.default with
        from_file_params := { file := p.file }
        frequency := p.frequency }
  | some (.fromNdx p) =>
      { Gui.LeafletClassificationParams.default with
        from_ndx_params := { ndx := p.ndx, heads := p.heads,
                             upper_leaflet := p.upper_leaflet,
                             lower_leaflet := p.lower_leaflet }
        frequency := p.frequency }
  | some (.fromMap _) => Gui.LeafletClassificationParams.default

/-- Does an optional classification carry a dense per-frame map? -/
def leafletsOptMap : Option Gorder.LeafletClassification → Bool
  | some l => l.isFromMap
  | none => false

/-- The aggregate a well-supported document imports to (field for field the
record built by `GuiAnalysis.tryFrom` once the four fallible conversions have
succeeded). -/
def importTotal (a : Gorder.Analysis) : Gui.GuiAnalysis :=
  { structure_file := a.structure_file
    trajectory := a.trajectory
    ndx := a.index.getD ""
    bonds := a.bonds.getD ""
    output := Gui.OutputFiles.fromAnalysis a
    analysis_type := Gui.AnalysisType.from a.analysis_type
    analysis_type_params := Gui.AnalysisTypeParams.from a.analysis_type
    membrane_normal := Gui.MembraneNormal.ofGorder a.membrane_normal
    dynamic_normal_params := Gui.DynamicNormalParams.ofGorder a.membrane_normal
    from_file_normals := fromFileNormalsOf a.membrane_normal
    leaflet_classification_method := Gui.LeafletClassification.ofGorder a.leaflets
    leaflet_classification_params := Gui.LeafletClassificationParams.ofGorder a.leaflets
    estimate_error_params := Gui.EstimateErrorParams.from a.estimate_error
    frame_selection_params := { begin := a.begin, stop := a.stop, step := a.step }
    geom_selection := Gui.GeomSelection.from a.geometry
    geom_selection_params := Gui.GeomSelectionParams.from a.geometry
    ordermaps_params := Gui.OrderMapsParams.from a.map
    other_params := Gui.OtherParams.from a }

/-- A non-map normal imports to its tag. -/
theorem mnTryFrom_ok (n : Gorder.MembraneNormal) (h : n.isFromMap = false) :
    Gui.MembraneNormal.tryFrom n = .ok (Gui.MembraneNormal.ofGorder n) := by
  cases n <;> simp_all [Gui.MembraneNormal.tryFrom, Gui.MembraneNormal.ofGorder,
    Gorder.MembraneNormal.isFromMap]

/-- A non-map normal imports to its dynamic-parameter block. -/
theorem dynTryFrom_ok (n : Gorder.MembraneNormal) (h : n.isFromMap = false) :
    Gui.DynamicNormalParams.tryFrom n = .ok (Gui.DynamicNormalParams.ofGorder n) := by
  cases n <;> simp_all [Gui.DynamicNormalParams.tryFrom, Gui.DynamicNormalParams.ofGorder,
    Gorder.MembraneNormal.isFromMap]

/-- A non-map classification imports to its method tag. -/
theorem lcTryFrom_ok (l : Option Gorder.LeafletClassification)
    (h : leafletsOptMap l = false) :
    Gui.LeafletClassification.tryFrom l = .ok (Gui.LeafletClassification.ofGorder l) := by
  cases l with
  | none => rfl
  | some x =>
      cases x <;> simp_all [Gui.LeafletClassification.tryFrom,
        Gui.LeafletClassification.ofGorder, leafletsOptMap,
        Gorder.LeafletClassification.isFromMap]

/-- A non-map classification imports to its parameter block. -/
theorem lcpTryFrom_ok (l : Option Gorder.LeafletClassification)
    (h : leafletsOptMap l = false) :
    Gui.LeafletClassificationParams.tryFrom l
      = .ok (Gui.LeafletClassificationParams.ofGorder l) := by
  cases l with
  | none => rfl
  | some x =>
      cases x <;> simp_all [Gui.LeafletClassificationParams.tryFrom,
        Gui.LeafletClassificationParams.ofGorder, leafletsOptMap,
        Gorder.LeafletClassification.isFromMap]

/-- Import succeeds on every document whose normals and leaflets are not dense
per-frame maps, producing the canonical aggregate. -/
theorem importGui_ok (a : Gorder.Analysis) (hn : a.normalsFromMap = false)
    (hl : a.leafletsFromMap = false) :
    Gui.GuiAnalysis.tryFrom a = .ok (importTotal a) := by
  have hn' : a.membrane_normal.isFromMap = false := hn
  have hl' : leafletsOptMap a.leaflets = false := hl
  simp only [Gui.GuiAnalysis.tryFrom, mnTryFrom_ok _ hn', dynTryFrom_ok _ hn',
    lcTryFrom_ok _ hl', lcpTryFrom_ok _ hl', Bind.bind, Except.bind]
  rfl

/-- Importing an optional path as `unwrap_or("")` and exporting it as
"include only if non-empty" is the identity on well-formed keys. -/
theorem optRound (o : Option String) (h : optStrOk o = true) :
    Gui.optOfString (o.getD "") = o := by
  cases o with
  | none => rfl
  | some s =>
      simp only [optStrOk, Bool.not_eq_true', decide_eq_false_iff_not] at h
      simp [Gui.optOfString, h]

/-- The leaflet membrane-normal override round-trips through the GUI tags. -/
theorem toAxis_fromAxis (ax : Gorder.Axis) :
    (Gui.MembraneNormal.fromAxis ax).toAxis = ax := by
  cases ax <;> rfl

/-- The analysis type round-trips through the GUI parameter blocks. -/
theorem export_analysis_type_round (g : Gui.GuiAnalysis) (t : Gorder.AnalysisType)
    (h1 : g.analysis_type = Gui.AnalysisType.from t)
    (h2 : g.analysis_type_params = Gui.AnalysisTypeParams.from t)
    (hwf : uaOptOk t = true) :
    g.toGorderAnalysisType = t := by
  cases t with
  | aaorder heavy hydro =>
      simp [Gui.GuiAnalysis.toGorderAnalysisType, h1, h2, Gui.AnalysisType.from,
        Gui.AnalysisTypeParams.from]
  | cgorder beads =>
      simp [Gui.GuiAnalysis.toGorderAnalysisType, h1, h2, Gui.AnalysisType.from,
        Gui.AnalysisTypeParams.from]
  | uaorder s u i =>
      simp only [uaOptOk, Bool.and_eq_true] at hwf
      simp [Gui.GuiAnalysis.toGorderAnalysisType, h1, h2, Gui.AnalysisType.from,
        Gui.AnalysisTypeParams.from, optRound s hwf.1.1, optRound u hwf.1.2,
        optRound i hwf.2]

/-- The membrane normal round-trips through the GUI fields. -/
theorem export_membrane_normal_round (g : Gui.GuiAnalysis) (n : Gorder.MembraneNormal)
    (h1 : g.membrane_normal = Gui.MembraneNormal.ofGorder n)
    (h2 : g.dynamic_normal_params = Gui.DynamicNormalParams.ofGorder n)
    (h3 : g.from_file_normals = fromFileNormalsOf n)
    (hmap : n.isFromMap = false)
    (hwf : dynNormalOk n = true) :
    g.toGorderMembraneNormal = .ok n := by
  cases n with
  | static ax =>
      cases ax <;>
        simp [Gui.GuiAnalysis.toGorderMembraneNormal, h1, Gui.MembraneNormal.ofGorder,
          Gui.MembraneNormal.fromAxis]
  | dynamic d =>
      simp only [dynNormalOk, Bool.and_eq_true, Bool.not_eq_true',
        decide_eq_false_iff_not] at hwf
      simp [Gui.GuiAnalysis.toGorderMembraneNormal, h1, h2, Gui.MembraneNormal.ofGorder,
        Gui.DynamicNormalParams.ofGorder, Gorder.DynamicNormal.new, hwf.1, hwf.2]
  | fromFile f =>
      simp [Gui.GuiAnalysis.toGorderMembraneNormal, h1, h3, Gui.MembraneNormal.ofGorder,
        fromFileNormalsOf]
  | fromMap u => simp [Gorder.MembraneNormal.isFromMap] at hmap

/-- The error-estimation block round-trips through the GUI parameter block. -/
theorem estimate_round (e : Option Gorder.EstimateError) (hwf : estimateOk e = true) :
    Gui.EstimateErrorParams.tryInto (Gui.EstimateErrorParams.from e) = .ok e := by
  cases e with
  | none => rfl
  | some v =>
      simp only [estimateOk, Bool.and_eq_true, decide_eq_true_eq] at hwf
      have hc : (match v.output_convergence with
          | Option.none => ""
          | some x => x) = v.output_convergence.getD "" := by
        cases v.output_convergence <;> rfl
      simp only [Gui.EstimateErrorParams.tryInto, Gui.EstimateErrorParams.from, hc,
        Bool.not_true, Bool.false_eq_true, if_false]
      have hoc : (if v.output_convergence.getD "" = "" then (Option.none : Option String)
          else some (v.output_convergence.getD "")) = v.output_convergence :=
        optRound v.output_convergence hwf.2
      rw [hoc]
      simp only [Gorder.EstimateError.new, Option.getD_some]
      rw [if_neg (by omega)]

/-- The leaflet classification round-trips through the GUI parameter block. -/
theorem leaflets_round (g : Gui.GuiAnalysis) (l : Option Gorder.LeafletClassification)
    (h1 : g.leaflet_classification_method = Gui.LeafletClassification.ofGorder l)
    (h2 : g.leaflet_classification_params = Gui.LeafletClassificationParams.ofGorder l)
    (hmap : leafletsOptMap l = false) :
    g.toGorderLeaflets = .ok l := by
  cases l with
  | none =>
      simp [Gui.GuiAnalysis.toGorderLeaflets, h1, Gui.LeafletClassification.ofGorder]
  | some x =>
    cases x with
    | global p =>
        simp only [Gui.GuiAnalysis.toGorderLeaflets, h1, h2,
          Gui.LeafletClassification.ofGorder, Gui.LeafletClassificationParams.ofGorder,
          Gorder.LeafletClassification.mkGlobal,
          Gorder.LeafletClassification.with_frequency]
        cases hpm : p.membrane_normal with
        | none =>
            simp only [Gui.convert_axis_option, Gui.add_normal]
            rw [← hpm]
        | some ax =>
            simp only [Gui.convert_axis_option, Gui.add_normal, toAxis_fromAxis,
              Gorder.LeafletClassification.with_membrane_normal]
            rw [← hpm]
    | local_ p =>
        simp only [Gui.GuiAnalysis.toGorderLeaflets, h1, h2,
          Gui.LeafletClassification.ofGorder, Gui.LeafletClassificationParams.ofGorder,
          Gorder.LeafletClassification.mkLocal,
          Gorder.LeafletClassification.with_frequency]
        cases hpm : p.membrane_normal with
        | none =>
            simp only [Gui.convert_axis_option, Gui.add_normal]
            rw [← hpm]
        | some ax =>
            simp only [Gui.convert_axis_option, Gui.add_normal, toAxis_fromAxis,
              Gorder.LeafletClassification.with_membrane_normal]
            rw [← hpm]
    | individual p =>
        simp only [Gui.GuiAnalysis.toGorderLeaflets, h1, h2,
          Gui.LeafletClassification.ofGorder, Gui.LeafletClassificationParams.ofGorder,
          Gorder.LeafletClassification.mkIndividual,
          Gorder.LeafletClassification.with_frequency]
        cases hpm : p.membrane_normal with
        | none =>
            simp only [Gui.convert_axis_option, Gui.add_normal]
            rw [← hpm]
        | some ax =>
            simp only [Gui.convert_axis_option, Gui.add_normal, toAxis_fromAxis,
              Gorder.LeafletClassification.with_membrane_normal]
            rw [← hpm]
    | clustering p =>
        simp [Gui.GuiAnalysis.toGorderLeaflets, h1, h2,
          Gui.LeafletClassification.ofGorder, Gui.LeafletClassificationParams.ofGorder,
          Gorder.LeafletClassification.mkClustering,
          Gorder.LeafletClassification.with_frequency]
    | fromFile p =>
        simp [Gui.GuiAnalysis.toGorderLeaflets, h1, h2,
          Gui.LeafletClassification.ofGorder, Gui.LeafletClassificationParams.ofGorder,
          Gorder.LeafletClassification.mkFromFile,
          Gorder.LeafletClassification.with_frequency]
    | fromNdx p =>
        simp [Gui.GuiAnalysis.toGorderLeaflets, h1, h2,
          Gui.LeafletClassification.ofGorder, Gui.LeafletClassificationParams.ofGorder,
          Gorder.LeafletClassification.mkFromNdx,
          Gorder.LeafletClassification.with_frequency]
    | fromMap u => simp [leafletsOptMap, Gorder.LeafletClassification.isFromMap] at hmap

/-- The geometry reference round-trips through the GUI reference fields. -/
theorem toReference_round (p : Gui.GeomSelectionParams) (r : Gorder.GeomReference)
    (h1 : p.reference_type = Gui.GeomReferenceType.from r)
    (h2 : p.ref_point = Gui.get_static_reference_point r)
    (h3 : p.ref_selection = Gui.get_reference_selection r) :
    p.toReference = r := by
  cases r <;>
    simp [Gui.GeomSelectionParams.toReference, h1, h2, h3, Gui.GeomReferenceType.from,
      Gui.get_static_reference_point, Gui.get_reference_selection]

/-- The geometry block round-trips through the GUI parameter block. -/
theorem geometry_round (g : Gui.GuiAnalysis) (geo : Option Gorder.Geometry)
    (h1 : g.geom_selection = Gui.GeomSelection.from geo)
    (h2 : g.geom_selection_params = Gui.GeomSelectionParams.from geo)
    (hwf : geometryValidOpt geo = true) :
    g.toGorderGeometry = .ok geo := by
  cases geo with
  | none => simp [Gui.GuiAnalysis.toGorderGeometry, h1, Gui.GeomSelection.from]
  | some gg =>
    cases gg with
    | cuboid p =>
        simp only [geometryValidOpt, geometryValid, Bool.and_eq_true] at hwf
        have href : (Gui.GeomSelectionParams.from
            (some (Gorder.Geometry.cuboid p))).toReference = p.reference :=
          toReference_round _ _ rfl rfl rfl
        simp only [Gui.GuiAnalysis.toGorderGeometry, h1, h2, Gui.GeomSelection.from]
        rw [href]
        simp only [Gui.GeomSelectionParams.from, Gorder.Geometry.mkCuboid, hwf.1.1,
          hwf.1.2, hwf.2, Bool.and_self, Bool.not_true, Bool.false_eq_true, if_false]
    | cylinder p =>
        simp only [geometryValidOpt, geometryValid, Bool.and_eq_true] at hwf
        have href : (Gui.GeomSelectionParams.from
            (some (Gorder.Geometry.cylinder p))).toReference = p.reference :=
          toReference_round _ _ rfl rfl rfl
        simp only [Gui.GuiAnalysis.toGorderGeometry, h1, h2, Gui.GeomSelection.from]
        rw [href]
        simp only [Gui.GeomSelectionParams.from, Gorder.Geometry.mkCylinder, hwf.1,
          hwf.2, Bool.not_true, Bool.false_eq_true, if_false]
    | sphere p =>
        simp only [geometryValidOpt, geometryValid] at hwf
        have href : (Gui.GeomSelectionParams.from
            (some (Gorder.Geometry.sphere p))).toReference = p.reference :=
          toReference_round _ _ rfl rfl rfl
        simp only [Gui.GuiAnalysis.toGorderGeometry, h1, h2, Gui.GeomSelection.from]
        rw [href]
        simp only [Gui.GeomSelectionParams.from, Gorder.Geometry.mkSphere, hwf,
          Bool.not_true, Bool.false_eq_true, if_false]

/-- An imported grid span exports back to itself when ordered. -/
theorem dim_round (gs : Gorder.GridSpan) (h : gridSpanOrdered gs = true) :
    Gui.dimSpan (Gui.OrderMapDimension.from gs) (Gui.ManualDimensions.from gs) = .ok gs := by
  cases gs with
  | auto => rfl
  | manual s e =>
      simp only [gridSpanOrdered] at h
      simp [Gui.dimSpan, Gui.OrderMapDimension.from, Gui.ManualDimensions.from,
        Gorder.GridSpan.mkManual, h]

/-- An imported plane choice exports back to itself. -/
theorem plane_round (o : Option Gorder.Plane) :
    Gui.planeTry (match o with
      | Option.none => Option.none
      | some .xy => some Gui.Plane.xy
      | some .xz => some Gui.Plane.xz
      | some .yz => some Gui.Plane.yz) = .ok o := by
  cases o with
  | none => rfl
  | some pl => cases pl <;> rfl

/-- The ordermap block round-trips through the GUI parameter block. -/
theorem ordermap_round (m : Option Gorder.OrderMap) (hwf : ordermapOk m = true) :
    Gui.OrderMapsParams.tryInto (Gui.OrderMapsParams.from m) = .ok m := by
  cases m with
  | none => rfl
  | some v =>
      simp only [ordermapOk, Bool.and_eq_true] at hwf
      obtain ⟨⟨⟨⟨hb1, hb2⟩, hd1⟩, hd2⟩, ho⟩ := hwf
      simp only [Gui.OrderMapsParams.from, Gui.OrderMapsParams.tryInto, Bool.not_true,
        Bool.false_eq_true, if_false, dim_round v.dim.1 hd1, dim_round v.dim.2 hd2,
        plane_round, Bind.bind, Except.bind, Gorder.OrderMap.build, hb1, hb2,
        Bool.and_self]
      have hoc : (if v.output_directory.getD "" = "" then (Option.none : Option String)
          else some (v.output_directory.getD "")) = v.output_directory :=
        optRound v.output_directory ho
      rw [hoc]

/-- C1: for every well-formed configuration document whose membrane normals
and leaflet assignment are not dense per-frame maps, import succeeds and
export of the imported aggregate reproduces the document exactly, field for
field — order-sensitively for the trajectory list and the NDX list, which are
carried as ordered lists throughout. -/
theorem c1_round_trip (a : Gorder.Analysis)
    (hn : a.normalsFromMap = false)
    (hl : a.leafletsFromMap = false)
    (hwf : a.docWellFormed = true) :
    ∃ g, Gui.GuiAnalysis.tryFrom a = .ok g ∧ g.tryInto = .ok a := by
  refine ⟨importTotal a, importGui_ok a hn hl, ?_⟩
  simp only [Gorder.Analysis.docWellFormed, Bool.and_eq_true] at hwf
  obtain ⟨⟨⟨⟨⟨⟨⟨⟨⟨hidx, hbonds⟩, htab⟩, hcsv⟩, hxvg⟩, hua⟩, heeOk⟩, hdynOk⟩,
    hgeoOk⟩, homOk⟩ := hwf
  have hat := export_analysis_type_round (importTotal a) a.analysis_type rfl rfl hua
  have hmn := export_membrane_normal_round (importTotal a) a.membrane_normal
    rfl rfl rfl hn hdynOk
  have heeR : (importTotal a).estimate_error_params.tryInto = .ok a.estimate_error :=
    estimate_round a.estimate_error heeOk
  have hlfR := leaflets_round (importTotal a) a.leaflets rfl rfl hl
  have hgeoR := geometry_round (importTotal a) a.geometry rfl rfl hgeoOk
  have homR : (importTotal a).ordermaps_params.tryInto = .ok a.map :=
    ordermap_round a.map homOk
  simp only [Gui.GuiAnalysis.tryInto, hat, hmn, heeR, hlfR, hgeoR, homR,
    Bind.bind, Except.bind]
  simp only [importTotal, Gui.OutputFiles.fromAnalysis, Gui.OtherParams.from]
  simp only [optRound a.index hidx, optRound a.bonds hbonds,
    optRound a.output_tab htab, optRound a.output_csv hcsv,
    optRound a.output_xvg hxvg]

/-- A concrete well-formed document exercising static normals, from-ndx
leaflets, error estimation, a cylinder geometry and an ordermap block. -/
def c1Doc : Gorder.Analysis :=
  { structure_file := "system.gro"
    trajectory := ["md1.xtc", "md2.xtc"]
    index := some "index.ndx"
    bonds := none
    output_yaml := "order.yaml"
    output_tab := none
    output_csv := some "order.csv"
    output_xvg := none
    analysis_type := .aaorder "element name carbon" "element name hydrogen"
    membrane_normal := .static .z
    leaflets := some ((Gorder.LeafletClassification.mkFromNdx ["l1.ndx", "l2.ndx"]
      "name P" "Upper" "Lower").with_frequency .once)
    estimate_error := some { n_blocks := 5, output_convergence := none }
    begin := 0
    stop := .posInf
    step := 2
    geometry := some (.cylinder
      { reference := .center, radius := 3, span := (.negInf, .posInf),
        orientation := .z })
    map := some
      { output_directory := some "maps", plane := some .xy,
        bin_size := (.fin (Rat.mk' 1 10), .fin (Rat.mk' 1 10)),
        dim := (.auto, .manual 0 10), min_samples := 5 }
    min_samples := 50
    n_threads := 4
    handle_pbc := true
    overwrite := false
    silent := false }

/-- C1 witness: the round trip applied to the concrete document. -/
theorem c1_round_trip_witness :
    c1Doc.normalsFromMap = false ∧ c1Doc.leafletsFromMap = false
    ∧ c1Doc.docWellFormed = true
    ∧ ∃ g, Gui.GuiAnalysis.tryFrom c1Doc = .ok g ∧ g.tryInto = .ok c1Doc :=
  ⟨rfl, rfl, by decide, c1_round_trip c1Doc rfl rfl (by decide)⟩
